import Mathlib

/-!
# Verification of the migrate-hub core (db_inner_migrator_syncer)

A shallow embedding, in Lean 4, of the core of the Go repository
`db_inner_migrator_syncer`: the migration catalog store
(`internal/store`, the migrations and runs store files), the HTTP
handlers that orchestrate it (`internal/http`), and the execution
engine (`internal/executor/executor.go`).

Modelling conventions:
* `uuid.UUID` values are opaque identifiers, modelled as `Nat`.
  Calls to `uuid.New()` become explicit fresh-identifier parameters.
* `time.Time` values are modelled as `Nat` timestamps; calls to
  `time.Now().UTC()` become an explicit `now` parameter.
* The catalog database is a `Catalog` record of entity lists; each Go
  store function becomes a pure function threading the catalog.
  A single SQL `UPDATE`/`INSERT`/`DELETE` statement becomes one pure
  catalog update; a Go `pgx` transaction becomes a single atomic step
  of the model (the model exposes exactly the states between Go-level
  statements and transactions, never states inside a transaction).
* Target databases (`migrate_hub_migrations` bookkeeping table plus a
  log of the SQL bodies successfully executed on the target) are
  modelled by `TargetDB`; the per-target advisory locks, connection
  handling and credential decryption in the Go code are concurrency /
  IO mechanics with no effect on the state transitions modelled here.
  Whether executing a SQL body on a target fails is modelled by an
  oracle `execFails : String → Bool`.
* Fallible Go functions returning `(T, error)` become `Except StoreErr T`.
-/

namespace MigrateHub

/-! ## SHA-256 (Go `crypto/sha256` + `encoding/hex`)

The store computes `hex.EncodeToString(sha256.Sum256([]byte(sql)))`.
This section implements SHA-256 over byte lists, with words as `Nat`
reduced mod `2^32`, and lowercase hex encoding, so that `checksum`
below is the exact function used by the Go code. -/

namespace SHA256

/-- 2^32, the word modulus. -/
def M32 : Nat := 4294967296

/-- Right rotation of a 32-bit word. -/
def rotr (n x : Nat) : Nat := ((x >>> n) ||| (x <<< (32 - n))) % M32

/-- Logical right shift of a 32-bit word. -/
def shr (n x : Nat) : Nat := x >>> n

/-- Addition mod 2^32. -/
def add32 (a b : Nat) : Nat := (a + b) % M32

/-- The 64 round constants. -/
def K : List Nat :=
  [1116352408, 1899447441, 3049323471, 3921009573, 961987163, 1508970993,
   2453635748, 2870763221, 3624381080, 310598401, 607225278, 1426881987,
   1925078388, 2162078206, 2614888103, 3248222580, 3835390401, 4022224774,
   264347078, 604807628, 770255983, 1249150122, 1555081692, 1996064986,
   2554220882, 2821834349, 2952996808, 3210313671, 3336571891, 3584528711,
   113926993, 338241895, 666307205, 773529912, 1294757372, 1396182291,
   1695183700, 1986661051, 2177026350, 2456956037, 2730485921, 2820302411,
   3259730800, 3345764771, 3516065817, 3600352804, 4094571909, 275423344,
   430227734, 506948616, 659060556, 883997877, 958139571, 1322822218,
   1537002063, 1747873779, 1955562222, 2024104815, 2227730452, 2361852424,
   2428436474, 2756734187, 3204031479, 3329325298]

/-- The initial hash state. -/
def H0 : List Nat :=
  [1779033703, 3144134277, 1013904242, 2773480762,
   1359893119, 2600822924, 528734635, 1541459225]

/-- Pad a message (list of bytes) to a multiple of 64 bytes:
a `0x80` byte, zeros, then the bit length as 8 big-endian bytes. -/
def pad (msg : List Nat) : List Nat :=
  let len := msg.length
  let bitLen := len * 8
  let zeros := (55 + 64 - len % 64) % 64
  msg ++ [0x80] ++ List.replicate zeros 0 ++
    [bitLen >>> 56 % 256, bitLen >>> 48 % 256, bitLen >>> 40 % 256, bitLen >>> 32 % 256,
     bitLen >>> 24 % 256, bitLen >>> 16 % 256, bitLen >>> 8 % 256, bitLen % 256]

/-- Split a byte list into consecutive chunks of `n` bytes
(structural recursion on a fuel bound so the kernel can reduce it). -/
def chunksFuel (n : Nat) : Nat → List Nat → List (List Nat)
  | _, [] => []
  | 0, l => [l]
  | fuel + 1, l => l.take n :: chunksFuel n fuel (l.drop n)

/-- Split a byte list into consecutive chunks of `n` bytes. -/
def chunks (n : Nat) (l : List Nat) : List (List Nat) := chunksFuel n l.length l

/-- Combine four bytes into a big-endian 32-bit word. -/
def word (bs : List Nat) : Nat :=
  match bs with
  | [a, b, c, d] => ((a <<< 24) ||| (b <<< 16) ||| (c <<< 8) ||| d) % M32
  | _ => 0

/-- Extend 16 words to the 64-word message schedule. -/
def schedule (w : List Nat) (i : Nat) : List Nat :=
  match i with
  | 0 => w
  | i + 1 =>
    let t := w.length
    let s0 := let x := w.getD (t - 15) 0; (rotr 7 x) ^^^ (rotr 18 x) ^^^ (shr 3 x)
    let s1 := let x := w.getD (t - 2) 0; (rotr 17 x) ^^^ (rotr 19 x) ^^^ (shr 10 x)
    schedule (w ++ [add32 (add32 (w.getD (t - 16) 0) s0) (add32 (w.getD (t - 7) 0) s1)]) i

/-- One round of the compression function on state `(a,b,c,d,e,f,g,h)`. -/
def round (st : List Nat) (k w : Nat) : List Nat :=
  match st with
  | [a, b, c, d, e, f, g, h] =>
    let s1 := (rotr 6 e) ^^^ (rotr 11 e) ^^^ (rotr 25 e)
    let ch := ((e &&& f) ^^^ ((M32 - 1 - e) &&& g)) % M32
    let t1 := add32 (add32 (add32 h s1) (add32 ch k)) w
    let s0 := (rotr 2 a) ^^^ (rotr 13 a) ^^^ (rotr 22 a)
    let mj := (a &&& b) ^^^ (a &&& c) ^^^ (b &&& c)
    let t2 := add32 s0 mj
    [add32 t1 t2, a, b, c, add32 d t1, e, f, g]
  | _ => st

/-- Compress one 64-byte block into the running hash state. -/
def compress (h : List Nat) (block : List Nat) : List Nat :=
  let w := schedule ((chunks 4 block).map word) 48
  let st := (List.range 64).foldl (fun st i => round st (K.getD i 0) (w.getD i 0)) h
  (h.zip st).map (fun p => add32 p.1 p.2)

/-- SHA-256 digest: 32 bytes from a byte-list message. -/
def digest (msg : List Nat) : List Nat :=
  let h := (chunks 64 (pad msg)).foldl compress H0
  h.foldr (fun x acc => (x >>> 24 % 256) :: (x >>> 16 % 256) :: (x >>> 8 % 256) :: (x % 256) :: acc) []

/-- Lowercase hex alphabet, as used by Go `encoding/hex`. -/
def hexDigits : List Char := "0123456789abcdef".data

/-- One lowercase hex character for a value < 16. -/
def hexChar (n : Nat) : Char := hexDigits.getD n '0'

/-- Two lowercase hex characters for one byte. -/
def byteHex (b : Nat) : List Char := [hexChar (b / 16 % 16), hexChar (b % 16)]

/-- Lowercase hex encoding of a byte list (Go `hex.EncodeToString`). -/
def hexEncode (bs : List Nat) : String := String.mk (bs.foldr (fun b acc => byteHex b ++ acc) [])

/-- UTF-8 encoding of a character, as a list of byte values
(Go strings are UTF-8; `[]byte(s)` yields these bytes). -/
def utf8Char (c : Char) : List Nat :=
  let n := c.toNat
  if n < 0x80 then [n]
  else if n < 0x800 then [0xc0 ||| (n >>> 6), 0x80 ||| (n &&& 0x3f)]
  else if n < 0x10000 then
    [0xe0 ||| (n >>> 12), 0x80 ||| ((n >>> 6) &&& 0x3f), 0x80 ||| (n &&& 0x3f)]
  else
    [0xf0 ||| (n >>> 18), 0x80 ||| ((n >>> 12) &&& 0x3f),
     0x80 ||| ((n >>> 6) &&& 0x3f), 0x80 ||| (n &&& 0x3f)]

/-- UTF-8 bytes of a string (the Go conversion `[]byte(s)`). -/
def utf8Bytes (s : String) : List Nat := s.data.flatMap utf8Char

/-- Lowercase SHA-256 hex digest of a string's exact UTF-8 bytes. -/
def sha256Hex (s : String) : String := hexEncode (digest (utf8Bytes s))

end SHA256

/-! ## Data model (catalog entities)

Mirrors the struct definitions in the store package: `Migration`
(migrations store file), `Run`, `RunItem`, `RunWithItems` (runs store
file), `DBSet` (db-set store file), `DBTarget`
(`internal/store/dbtarget.go`), and the `approvals` table rows written
by `ApproveRun` / `DenyRun`. -/

/-- Opaque 128-bit identifiers (`uuid.UUID`), modelled as `Nat`. -/
abbrev Id := Nat

/-- `store.Migration`. -/
structure Migration where
  id : Id
  projectId : Id
  key : String
  name : String
  jira : String
  description : String
  sqlUp : String
  sqlDown : Option String
  checksumUp : String
  checksumDown : Option String
  version : Nat
  transactionMode : String
  createdBy : Id
  createdAt : Nat
  updatedAt : Nat
deriving Repr, DecidableEq

/-- A row of the `approvals` table (id, migration_id, env, decision,
comment, decided_by, decided_at, checksum_up, checksum_down). -/
structure Approval where
  id : Id
  migrationId : Id
  env : String
  decision : String
  comment : Option String
  decidedBy : Id
  decidedAt : Nat
  checksumUp : String
  checksumDown : Option String
deriving Repr, DecidableEq

/-- `store.DBSet`. -/
structure DBSet where
  id : Id
  projectId : Id
  env : String
  name : String
  isActive : Bool
  createdAt : Nat
deriving Repr, DecidableEq

/-- `store.DBTarget` (the encrypted password is held next to the row in
the Go schema; credential handling is not part of the modelled state). -/
structure DBTarget where
  id : Id
  dbSetId : Id
  engine : String
  host : String
  port : Nat
  dbname : String
  username : String
  isActive : Bool
  createdAt : Nat
deriving Repr, DecidableEq

/-- `store.Run`. -/
structure Run where
  id : Id
  runType : String
  migrationId : Id
  projectId : Id
  env : String
  dbSetId : Id
  status : String
  requestedBy : Id
  requestedAt : Nat
  approvedBy : Option Id := none
  approvedAt : Option Nat := none
  approvalComment : Option String := none
  executedBy : Option Id := none
  startedAt : Option Nat := none
  finishedAt : Option Nat := none
  checksumUpAtRequest : String
  checksumDownAtRequest : Option String
deriving Repr, DecidableEq

/-- `store.RunItem`. -/
structure RunItem where
  id : Id
  runId : Id
  dbTargetId : Id
  status : String
  startedAt : Option Nat := none
  finishedAt : Option Nat := none
  error : Option String := none
  log : Option String := none
deriving Repr, DecidableEq

/-- `store.RunWithItems`. -/
structure RunWithItems where
  run : Run
  items : List RunItem
deriving Repr, DecidableEq

/-- The catalog database: one list per table. -/
structure Catalog where
  migrations : List Migration := []
  approvals : List Approval := []
  dbSets : List DBSet := []
  dbTargets : List DBTarget := []
  runs : List Run := []
  runItems : List RunItem := []
deriving Repr, DecidableEq

/-- Typed errors: each `errors.New`/`Err...` value returned by the
modelled store and executor functions. -/
inductive StoreErr where
  | migrationNotFound
  | migrationKeyEmpty
  | migrationNameEmpty
  | migrationSQLMissing
  | txModeInvalid
  | runNotFound
  | runInvalidStatus
  | runNoTargets
  | runEnvInvalid
  | invalidRunType
  | checksumMismatch
  | alreadyApplied
  | rollbackMissingSQL
  | dbSetNotFound
  | dbSetEnvMismatch
  | dbTargetNotFound
  | dbTargetBadEngine
  | targetDisabled
  | checksumConflictOnTarget
  | sqlExecError
  | runMustBeApproved
deriving Repr, DecidableEq

/-- Go error strings recorded into `run_items.error` by the executor
(driver-generated texts for SQL failures are modelled generically). -/
def errText : StoreErr → String
  | .targetDisabled => "target disabled"
  | .checksumConflictOnTarget => "migration already applied with different checksum"
  | .dbTargetBadEngine => "invalid engine"
  | .dbTargetNotFound => "db target not found"
  | .sqlExecError => "sql execution failed"
  | _ => "error"

/-! ## String helpers

Models of Go `strings.TrimSpace` and `strings.ToLower`, defined over
the character list so the kernel can evaluate them (the inputs handled
by this system — env names, run types, engine names, SQL, tx modes —
are ASCII, where these agree with Go exactly). -/

/-- Go `strings.ToLower`. -/
def strToLower (s : String) : String := String.mk (s.data.map Char.toLower)

/-- Go `strings.TrimSpace`. -/
def strTrim (s : String) : String :=
  String.mk (((s.data.dropWhile Char.isWhitespace).reverse.dropWhile Char.isWhitespace).reverse)

/-! ## Migrations store

The migrations store file: `checksum`, `normalizeTxMode`,
`CreateMigration`, `GetMigration`, `UpdateMigration`,
`DeleteApprovalsForMigration`, `coalesceString`. -/

/-- `checksum` (migrations store): SHA-256 hex of the exact SQL text. -/
def checksum (sql : String) : String := SHA256.sha256Hex sql

/-- `normalizeTxMode` (migrations store). -/
def normalizeTxMode (mode : String) : String :=
  let m := strToLower (strTrim mode)
  if m = "" || m = "auto" then "auto"
  else if m = "single_transaction" then "single_transaction"
  else if m = "no_transaction" then "no_transaction"
  else ""

/-- `coalesceString` (migrations store). -/
def coalesceString (ptr : Option String) (current : String) : String :=
  match ptr with
  | none => current
  | some s => s

/-- `store.CreateMigrationInput`. -/
structure CreateMigrationInput where
  projectId : Id
  key : String
  name : String
  jira : String
  description : String
  sqlUp : String
  sqlDown : Option String
  transactionMode : String
  createdBy : Id
deriving Repr, DecidableEq

/-- `store.UpdateMigrationInput`. -/
structure UpdateMigrationInput where
  name : Option String := none
  jira : Option String := none
  description : Option String := none
  sqlUp : Option String := none
  sqlDown : Option String := none
  transactionMode : Option String := none
deriving Repr, DecidableEq

/-- `store.CreateMigration`. `uuid.New()` and `time.Now().UTC()` are
the explicit `id` and `now` parameters; the duplicate-key database
conflict (pg error 23505) is not modelled. Returns the created row. -/
def CreateMigration (c : Catalog) (now : Nat) (id : Id) (input : CreateMigrationInput) :
    Except StoreErr (Catalog × Migration) :=
  if strTrim input.key = "" then .error .migrationKeyEmpty
  else if strTrim input.name = "" then .error .migrationNameEmpty
  else if strTrim input.sqlUp = "" then .error .migrationSQLMissing
  else
    let mode := normalizeTxMode input.transactionMode
    if mode = "" then .error .txModeInvalid
    else
      let checksumUp := checksum input.sqlUp
      let checksumDown := input.sqlDown.map checksum
      let m : Migration :=
        { id := id, projectId := input.projectId, key := input.key, name := input.name,
          jira := input.jira, description := input.description,
          sqlUp := input.sqlUp, sqlDown := input.sqlDown,
          checksumUp := checksumUp, checksumDown := checksumDown,
          version := 1, transactionMode := mode,
          createdBy := input.createdBy, createdAt := now, updatedAt := now }
      .ok ({ c with migrations := c.migrations ++ [m] }, m)

/-- `store.GetMigration`: `WHERE id = $1 AND project_id = $2`. -/
def GetMigration (c : Catalog) (projectId id : Id) : Except StoreErr Migration :=
  match c.migrations.find? (fun m => m.id == id && m.projectId == projectId) with
  | some m => .ok m
  | none => .error .migrationNotFound

/-- The `sql_down` patch rule of `UpdateMigration`: an explicit value
is trimmed, and a blank value clears the field; an absent value keeps
the current one. -/
def sqlDownPatch (input : UpdateMigrationInput) (current : Migration) : Option String :=
  match input.sqlDown with
  | some d => if strTrim d = "" then none else some (strTrim d)
  | none => current.sqlDown

/-- The `sqlChanged` computation of `UpdateMigration`: the SQL changed
when `sql_up` differs, or `sql_down` flips between present and absent,
or both are present with different text. -/
def sqlChangedCalc (sqlUp : String) (sqlDown : Option String) (current : Migration) : Bool :=
  ((sqlUp != current.sqlUp)
    || (sqlDown.isNone && current.sqlDown.isSome)
    || (sqlDown.isSome && current.sqlDown.isNone))
  || (match sqlDown, current.sqlDown with
      | some a, some b => a != b
      | _, _ => false)

/-- The tx-mode patch rule of `UpdateMigration`: an explicit value is
normalized (rejecting unknown modes); an absent value keeps the
current one. -/
def txModePatch (input : UpdateMigrationInput) (current : Migration) :
    Except StoreErr String :=
  match input.transactionMode with
  | some m => let mode := normalizeTxMode m
              if mode = "" then .error .txModeInvalid else .ok mode
  | none => .ok current.transactionMode

/-- `store.UpdateMigration`: partial update; when the SQL changed,
recomputes checksums and increments `version` in the same single
`UPDATE` statement. It does NOT touch the `approvals` table. Returns
the updated catalog, the updated row, and `sqlChanged`. -/
def UpdateMigration (c : Catalog) (projectId id : Id) (input : UpdateMigrationInput)
    (now : Nat) : Except StoreErr (Catalog × Migration × Bool) :=
  match GetMigration c projectId id with
  | .error e => .error e
  | .ok current =>
    let name := coalesceString input.name current.name
    let jira := coalesceString input.jira current.jira
    let description := coalesceString input.description current.description
    let sqlUp := coalesceString input.sqlUp current.sqlUp
    let sqlDown := sqlDownPatch input current
    match txModePatch input current with
    | .error e => .error e
    | .ok txMode =>
      if strTrim name = "" then .error .migrationNameEmpty
      else if strTrim sqlUp = "" then .error .migrationSQLMissing
      else
        let sqlChanged := sqlChangedCalc sqlUp sqlDown current
        let version := if sqlChanged then current.version + 1 else current.version
        let checksumUp := if sqlChanged then checksum sqlUp else current.checksumUp
        let checksumDown := if sqlChanged then sqlDown.map checksum else current.checksumDown
        let m : Migration :=
          { current with name := name, jira := jira, description := description,
                         sqlUp := sqlUp, sqlDown := sqlDown,
                         checksumUp := checksumUp, checksumDown := checksumDown,
                         version := version, transactionMode := txMode, updatedAt := now }
        let c1 := { c with migrations :=
                     c.migrations.map fun x =>
                       if x.id == id && x.projectId == projectId then m else x }
        .ok (c1, m, sqlChanged)

/-- `store.DeleteApprovalsForMigration`: one `DELETE` statement. -/
def DeleteApprovalsForMigration (c : Catalog) (migrationId : Id) : Catalog :=
  { c with approvals := c.approvals.filter (fun a => a.migrationId != migrationId) }

/-- The catalog-mutating core of `MigrationHandler.Update`
(`internal/http/migrations_handlers.go`): call `UpdateMigration`; when
it reports `sqlChanged`, delete the approvals in a separate,
subsequent store call (audit writes are not part of the catalog model;
an error from the deletion is only logged in Go, so the deletion step
is best-effort — here modelled as succeeding). -/
def MigrationHandlerUpdate (c : Catalog) (projectId id : Id) (input : UpdateMigrationInput)
    (now : Nat) : Except StoreErr (Catalog × Migration × Bool) :=
  match UpdateMigration c projectId id input now with
  | .error e => .error e
  | .ok (c1, m, sqlChanged) =>
    let c2 := if sqlChanged then DeleteApprovalsForMigration c1 m.id else c1
    .ok (c2, m, sqlChanged)

/-! ## DB sets and targets (lookups used by the runs store and executor) -/

/-- `store.GetDBSet`: `WHERE id = $1`. -/
def GetDBSet (c : Catalog) (id : Id) : Except StoreErr DBSet :=
  match c.dbSets.find? (fun s => s.id == id) with
  | some s => .ok s
  | none => .error .dbSetNotFound

/-- `store.ListDBTargetsBySet`: `WHERE db_set_id = $1` (the SQL orders
by `created_at DESC`; the row order is irrelevant to the properties
proved here and list order stands in for it). -/
def ListDBTargetsBySet (c : Catalog) (dbSetId : Id) : List DBTarget :=
  c.dbTargets.filter (fun t => t.dbSetId == dbSetId)

/-- `store.GetDBTarget`: `WHERE id = $1` (the encrypted password also
returned by the Go function is credential material outside the model). -/
def GetDBTarget (c : Catalog) (id : Id) : Except StoreErr DBTarget :=
  match c.dbTargets.find? (fun t => t.id == id) with
  | some t => .ok t
  | none => .error .dbTargetNotFound

/-! ## Runs store

The runs store file: `RequestRun`, `ApproveRun`, `DenyRun`, `getRun`,
`listRunItems`, `GetRunWithItems`, `nullableString`, `equalNullable`. -/

/-- `equalNullable` (runs store / executor): nullable string equality. -/
def equalNullable (a b : Option String) : Bool :=
  match a, b with
  | none, none => true
  | some x, some y => x == y
  | _, _ => false

/-- `nullableString` (runs store): blank strings become SQL NULL. -/
def nullableString (s : String) : Option String :=
  if strTrim s = "" then none else some (strTrim s)

/-- `store.RequestRunInput`. -/
structure RequestRunInput where
  projectId : Id
  migrationId : Id
  dbSetId : Id
  env : String
  requestedBy : Id
  runType : String
deriving Repr, DecidableEq

/-- `store.ApprovalDecisionInput`. -/
structure ApprovalDecisionInput where
  runId : Id
  projectId : Id
  actorId : Id
  comment : String
  decision : String
deriving Repr, DecidableEq

/-- `getRun` (runs store): `WHERE id = $1 AND project_id = $2`. -/
def getRun (c : Catalog) (runId projectId : Id) : Except StoreErr Run :=
  match c.runs.find? (fun r => r.id == runId && r.projectId == projectId) with
  | some r => .ok r
  | none => .error .runNotFound

/-- Insertion into a list sorted by item id (helper for `listRunItems`). -/
def insertById (x : RunItem) : List RunItem → List RunItem
  | [] => [x]
  | y :: ys => if x.id ≤ y.id then x :: y :: ys else y :: insertById x ys

/-- Sort run items by id (the SQL `ORDER BY id`). -/
def sortById (l : List RunItem) : List RunItem := l.foldr insertById []

/-- `listRunItems` (runs store): `WHERE run_id = $1 ORDER BY id`. -/
def listRunItems (c : Catalog) (runId : Id) : List RunItem :=
  sortById (c.runItems.filter (fun it => it.runId == runId))

/-- `store.GetRunWithItems`. -/
def GetRunWithItems (c : Catalog) (projectId runId : Id) : Except StoreErr RunWithItems :=
  match getRun c runId projectId with
  | .error e => .error e
  | .ok run => .ok { run := run, items := listRunItems c run.id }

/-- The run-type normalization at the top of `RequestRun`: trim,
lowercase, default the empty string to `apply`. -/
def normRunType (s : String) : String :=
  let r := strToLower (strTrim s)
  if r = "" then "apply" else r

/-- `store.RequestRun`: validates env and run type, requires `sql_down`
for rollback, checks the db set's project and env, enumerates active
targets, snapshots the migration checksums, and inserts the run (status
`awaiting_approval`) plus one `queued` item per active target in one
transaction. `uuid.New()` becomes `runId` for the run and `freshItemId
i` for the i-th item. -/
def RequestRun (c : Catalog) (input : RequestRunInput) (runId : Id)
    (freshItemId : Nat → Id) (now : Nat) : Except StoreErr (Catalog × RunWithItems) :=
  let env := strToLower (strTrim input.env)
  if env != "daily" && env != "stg" && env != "prd" then .error .runEnvInvalid
  else
    let runType := normRunType input.runType
    if runType != "apply" && runType != "rollback" then .error .invalidRunType
    else
      match GetMigration c input.projectId input.migrationId with
      | .error e => .error e
      | .ok mig =>
        if runType == "rollback" &&
            (match mig.sqlDown with
             | none => true
             | some d => strTrim d == "") then .error .rollbackMissingSQL
        else
          match GetDBSet c input.dbSetId with
          | .error e => .error e
          | .ok set =>
            if set.projectId != input.projectId then .error .dbSetNotFound
            else if set.env != env then .error .dbSetEnvMismatch
            else
              let targets := ListDBTargetsBySet c input.dbSetId
              let activeTargets := targets.filter (fun t => t.isActive)
              if activeTargets.isEmpty then .error .runNoTargets
              else
                let run : Run :=
                  { id := runId, runType := runType, migrationId := mig.id,
                    projectId := input.projectId, env := env, dbSetId := input.dbSetId,
                    status := "awaiting_approval", requestedBy := input.requestedBy,
                    requestedAt := now, checksumUpAtRequest := mig.checksumUp,
                    checksumDownAtRequest := mig.checksumDown }
                let items : List RunItem :=
                  activeTargets.enum.map fun p =>
                    { id := freshItemId p.1, runId := run.id, dbTargetId := p.2.id,
                      status := "queued" }
                let c1 := { c with runs := c.runs ++ [run],
                                   runItems := c.runItems ++ items }
                .ok (c1, { run := run, items := items })

/-- `store.ApproveRun`: requires status `awaiting_approval`, re-reads
the migration and compares its checksums against the run's request
snapshot, then in one transaction sets the run to `approved` and
appends one `approved` row to `approvals` carrying the run's snapshot
checksums. `approvalId` models the fresh `uuid.New()`. -/
def ApproveRun (c : Catalog) (input : ApprovalDecisionInput) (approvalId : Id)
    (now : Nat) : Except StoreErr (Catalog × Run) :=
  match getRun c input.runId input.projectId with
  | .error e => .error e
  | .ok run =>
    if run.status != "awaiting_approval" then .error .runInvalidStatus
    else
      match GetMigration c run.projectId run.migrationId with
      | .error e => .error e
      | .ok mig =>
        if mig.checksumUp != run.checksumUpAtRequest ||
            !(equalNullable mig.checksumDown run.checksumDownAtRequest) then
          .error .checksumMismatch
        else
          let comment := strTrim input.comment
          let run1 := { run with status := "approved", approvedBy := some input.actorId,
                                 approvedAt := some now,
                                 approvalComment := nullableString comment }
          let a : Approval :=
            { id := approvalId, migrationId := run.migrationId, env := run.env,
              decision := "approved", comment := nullableString comment,
              decidedBy := input.actorId, decidedAt := now,
              checksumUp := run.checksumUpAtRequest,
              checksumDown := run.checksumDownAtRequest }
          let c1 := { c with runs := c.runs.map fun r =>
                               if r.id == input.runId then run1 else r,
                             approvals := c.approvals ++ [a] }
          .ok (c1, run1)

/-- `store.DenyRun`: requires status `awaiting_approval`, then in one
transaction sets the run to `denied` and appends one `denied` row to
`approvals`. Unlike `ApproveRun` it performs NO checksum re-read. -/
def DenyRun (c : Catalog) (input : ApprovalDecisionInput) (approvalId : Id)
    (now : Nat) : Except StoreErr (Catalog × Run) :=
  match getRun c input.runId input.projectId with
  | .error e => .error e
  | .ok run =>
    if run.status != "awaiting_approval" then .error .runInvalidStatus
    else
      let comment := strTrim input.comment
      let run1 := { run with status := "denied", approvedBy := some input.actorId,
                             approvedAt := some now,
                             approvalComment := nullableString comment }
      let a : Approval :=
        { id := approvalId, migrationId := run.migrationId, env := run.env,
          decision := "denied", comment := nullableString comment,
          decidedBy := input.actorId, decidedAt := now,
          checksumUp := run.checksumUpAtRequest,
          checksumDown := run.checksumDownAtRequest }
      let c1 := { c with runs := c.runs.map fun r =>
                           if r.id == input.runId then run1 else r,
                         approvals := c.approvals ++ [a] }
      .ok (c1, run1)

/-! ## Execution engine (`internal/executor/executor.go`)

The per-target state is the `migrate_hub_migrations` bookkeeping table
plus a log of the SQL bodies successfully executed on that target.
Connections, advisory locks and password decryption are IO/concurrency
mechanics elided by the model; whether a SQL body fails on a target is
the oracle `execFails`. -/

/-- A row of the `migrate_hub_migrations` bookkeeping table inside a
target database. -/
structure BookRow where
  migrationKey : String
  checksumUp : String
  checksumDown : Option String
  appliedBy : String
  toolRunId : Id
deriving Repr, DecidableEq

/-- The modelled state of one target database. -/
structure TargetDB where
  book : List BookRow := []
  executedSQL : List String := []
deriving Repr, DecidableEq

/-- Look up a target database's state; an absent entry is a fresh
target (the bookkeeping table is created on demand and empty). -/
def getTargetDB (dbs : List (Id × TargetDB)) (id : Id) : TargetDB :=
  match dbs.find? (fun p => p.1 == id) with
  | some p => p.2
  | none => {}

/-- Store back a target database's state. -/
def setTargetDB (dbs : List (Id × TargetDB)) (id : Id) (db : TargetDB) :
    List (Id × TargetDB) :=
  if (dbs.find? (fun p => p.1 == id)).isSome then
    dbs.map fun p => if p.1 == id then (id, db) else p
  else dbs ++ [(id, db)]

/-- The body shared by both drivers' `applyFn` closures: execute the
migration's `SQLUp` body, then insert the bookkeeping row. Note the Go
code passes `mig.SQLUp` unconditionally — the run's `run_type` is
never consulted when selecting the SQL body. -/
def applyFn (run : Run) (mig : Migration) (db : TargetDB)
    (execFails : String → Bool) : Except StoreErr TargetDB :=
  if execFails mig.sqlUp then .error .sqlExecError
  else
    let appliedBy := match run.executedBy with
                     | some u => toString u
                     | none => ""
    .ok { db with
          executedSQL := db.executedSQL ++ [mig.sqlUp],
          book := db.book ++
            [{ migrationKey := mig.key, checksumUp := mig.checksumUp,
               checksumDown := mig.checksumDown, appliedBy := appliedBy,
               toolRunId := run.id }] }

/-- `Executor.execPostgres`: consult the bookkeeping row for the
migration key (same checksum → already applied; different checksum →
conflict), otherwise run `applyFn` under the transaction mode. In the
`single_transaction`/`auto` arm a body failure rolls the transaction
back, so an error always leaves the target unchanged — which the
`Except` error arm models exactly. -/
def execPostgres (run : Run) (mig : Migration) (db : TargetDB)
    (execFails : String → Bool) : Except StoreErr TargetDB :=
  match db.book.find? (fun r => r.migrationKey == mig.key) with
  | some row =>
    if row.checksumUp == mig.checksumUp then .error .alreadyApplied
    else .error .checksumConflictOnTarget
  | none =>
    if mig.transactionMode == "no_transaction" then applyFn run mig db execFails
    else if mig.transactionMode == "single_transaction" ||
            mig.transactionMode == "auto" then applyFn run mig db execFails
    else .error .txModeInvalid

/-- `Executor.execMySQL`: the MySQL driver duplicates the postgres
logic (bookkeeping lookup, then `applyFn` with `mig.SQLUp` under the
transaction mode). -/
def execMySQL (run : Run) (mig : Migration) (db : TargetDB)
    (execFails : String → Bool) : Except StoreErr TargetDB :=
  match db.book.find? (fun r => r.migrationKey == mig.key) with
  | some row =>
    if row.checksumUp == mig.checksumUp then .error .alreadyApplied
    else .error .checksumConflictOnTarget
  | none =>
    if mig.transactionMode == "no_transaction" then applyFn run mig db execFails
    else if mig.transactionMode == "single_transaction" ||
            mig.transactionMode == "auto" then applyFn run mig db execFails
    else .error .txModeInvalid

/-- `Executor.executeItem`: load the target, reject inactive targets,
dispatch on the engine (password decryption elided). -/
def executeItem (c : Catalog) (run : Run) (item : RunItem) (mig : Migration)
    (dbs : List (Id × TargetDB)) (execFails : String → Bool) :
    Except StoreErr (List (Id × TargetDB)) :=
  match GetDBTarget c item.dbTargetId with
  | .error e => .error e
  | .ok target =>
    if !target.isActive then .error .targetDisabled
    else
      let tdb := getTargetDB dbs target.id
      if strToLower target.engine == "postgres" then
        match execPostgres run mig tdb execFails with
        | .error e => .error e
        | .ok tdb1 => .ok (setTargetDB dbs target.id tdb1)
      else if strToLower target.engine == "mysql" then
        match execMySQL run mig tdb execFails with
        | .error e => .error e
        | .ok tdb1 => .ok (setTargetDB dbs target.id tdb1)
      else .error .dbTargetBadEngine

/-- `Executor.updateRunItemStatus`: the `UPDATE run_items SET status =
COALESCE($2, status), error = COALESCE($3, error), finished_at =
COALESCE($4, finished_at), started_at = COALESCE(started_at, now())`
statement (the status argument is always non-null at all call sites). -/
def updateRunItemStatusIn (c : Catalog) (itemID : Id) (status : String)
    (errMsg : Option String) (finishedAt : Option Nat) (now : Nat) : Catalog :=
  { c with runItems := c.runItems.map fun it =>
      if it.id == itemID then
        { it with status := status,
                  error := match errMsg with
                           | some m => some m
                           | none => it.error,
                  finishedAt := match finishedAt with
                                | some t => some t
                                | none => it.finishedAt,
                  startedAt := match it.startedAt with
                               | some t => some t
                               | none => some now }
      else it }

/-- State carried through the executor's item loop: the catalog, the
target databases, the in-memory items processed so far (the executor
mutates its loaded `run.Items` slice in step with the DB writes), and
the loop's `firstErr`. -/
structure ExecState where
  catalog : Catalog
  dbs : List (Id × TargetDB)
  doneItems : List RunItem := []
  firstErr : Option StoreErr := none
deriving Repr, DecidableEq

/-- The executor's item loop: skip items that are not `queued`; mark
the item `running`; execute it; `ErrAlreadyApplied` becomes status
`skipped` with message "already applied, skipped"; any other error
marks the item `failed` with the error text and BREAKS the loop
(remaining items are left untouched); success marks it `executed`. -/
def execLoop (run : Run) (mig : Migration) (execFails : String → Bool) (now : Nat) :
    List RunItem → ExecState → ExecState
  | [], st => st
  | item :: rest, st =>
    if item.status != "queued" then
      execLoop run mig execFails now rest
        { st with doneItems := st.doneItems ++ [item] }
    else
      let c1 := updateRunItemStatusIn st.catalog item.id "running" none none now
      let item1 := { item with status := "running", startedAt := some now }
      match executeItem c1 run item1 mig st.dbs execFails with
      | .error .alreadyApplied =>
        let msg := "already applied, skipped"
        let c2 := updateRunItemStatusIn c1 item1.id "skipped" (some msg) (some now) now
        let item2 := { item1 with status := "skipped", finishedAt := some now,
                                  error := none }
        execLoop run mig execFails now rest
          { st with catalog := c2, doneItems := st.doneItems ++ [item2] }
      | .error e =>
        let msg := errText e
        let c2 := updateRunItemStatusIn c1 item1.id "failed" (some msg) (some now) now
        let item2 := { item1 with status := "failed", error := some msg,
                                  finishedAt := some now }
        { st with catalog := c2,
                  doneItems := st.doneItems ++ [item2] ++ rest,
                  firstErr := some e }
      | .ok dbs1 =>
        let c2 := updateRunItemStatusIn c1 item1.id "executed" none (some now) now
        let item2 := { item1 with status := "executed", finishedAt := some now }
        execLoop run mig execFails now rest
          { st with catalog := c2, dbs := dbs1, doneItems := st.doneItems ++ [item2] }

/-- Decidable equality for `Except` results. -/
instance {ε α : Type} [DecidableEq ε] [DecidableEq α] : DecidableEq (Except ε α) := fun a b =>
  match a, b with
  | .ok x, .ok y =>
    if h : x = y then .isTrue (congrArg Except.ok h)
    else .isFalse (fun hh => h (Except.ok.inj hh))
  | .error x, .error y =>
    if h : x = y then .isTrue (congrArg Except.error h)
    else .isFalse (fun hh => h (Except.error.inj hh))
  | .ok _, .error _ => .isFalse (fun hh => Except.noConfusion hh)
  | .error _, .ok _ => .isFalse (fun hh => Except.noConfusion hh)

/-- The full result of `Executor.ExecuteRun`: the catalog and target
states after the call, the returned value (`RunWithItems` or error),
and the error the Go function returns ALONGSIDE the final run object
when an item failed (`firstErr`). -/
structure ExecOut where
  catalog : Catalog
  dbs : List (Id × TargetDB)
  result : Except StoreErr RunWithItems
  runErr : Option StoreErr := none
deriving Repr, DecidableEq

/-- `Executor.ExecuteRun`: preconditions in order (run exists; status
`approved`; migration checksums still equal the request snapshot) with
no writes before they all pass; then mark the run `running`, loop over
the items, and finish the run as `failed` when any item failed, else
`executed`. The several `time.Now()` readings are collapsed into the
single `now` parameter. -/
def ExecuteRun (c : Catalog) (dbs : List (Id × TargetDB)) (execFails : String → Bool)
    (projectId runId actorId : Id) (now : Nat) : ExecOut :=
  match GetRunWithItems c projectId runId with
  | .error e => { catalog := c, dbs := dbs, result := .error e }
  | .ok rwi =>
    if rwi.run.status != "approved" then
      { catalog := c, dbs := dbs, result := .error .runMustBeApproved }
    else
      match GetMigration c projectId rwi.run.migrationId with
      | .error e => { catalog := c, dbs := dbs, result := .error e }
      | .ok mig =>
        if mig.checksumUp != rwi.run.checksumUpAtRequest ||
            !(equalNullable mig.checksumDown rwi.run.checksumDownAtRequest) then
          { catalog := c, dbs := dbs, result := .error .checksumMismatch }
        else
          let run1 := { rwi.run with status := "running", executedBy := some actorId,
                                     startedAt := some now }
          let c1 := { c with runs := c.runs.map fun r =>
                               if r.id == rwi.run.id then run1 else r }
          let st := execLoop run1 mig execFails now rwi.items
                      { catalog := c1, dbs := dbs }
          match st.firstErr with
          | some e =>
            let run2 := { run1 with status := "failed", finishedAt := some now }
            let c2 := { st.catalog with runs := st.catalog.runs.map fun r =>
                          if r.id == run1.id then { r with status := "failed",
                                                           finishedAt := some now }
                          else r }
            { catalog := c2, dbs := st.dbs,
              result := .ok { run := run2, items := st.doneItems }, runErr := some e }
          | none =>
            let run2 := { run1 with status := "executed", finishedAt := some now }
            let c2 := { st.catalog with runs := st.catalog.runs.map fun r =>
                          if r.id == run1.id then { r with status := "executed",
                                                           finishedAt := some now }
                          else r }
            { catalog := c2, dbs := st.dbs,
              result := .ok { run := run2, items := st.doneItems }, runErr := none }

/-- Specification predicate: every run item in status `skipped`
carries the executor's skip message. -/
def skippedMsgInv (c : Catalog) : Prop :=
  ∀ it ∈ c.runItems, it.status = "skipped" → it.error = some "already applied, skipped"

/-! ## Concrete sample states

Small catalogs used by the closed theorems (counterexamples and
witnesses) below. Checksum fields are arbitrary opaque strings where
the theorem at hand does not depend on how checksums are computed. -/

/-- A migration with both SQL bodies (opaque checksum strings). -/
def sampleMig : Migration :=
  { id := 1, projectId := 1, key := "20250101_001_t", name := "create t", jira := "",
    description := "", sqlUp := "CREATE TABLE t(id int);", sqlDown := some "DROP TABLE t;",
    checksumUp := "cs-up", checksumDown := some "cs-down", version := 1,
    transactionMode := "auto", createdBy := 9, createdAt := 0, updatedAt := 0 }

/-- A staging db set of project 1. -/
def sampleSet : DBSet :=
  { id := 2, projectId := 1, env := "stg", name := "s", isActive := true, createdAt := 0 }

/-- An active postgres target inside `sampleSet`. -/
def sampleTgt : DBTarget :=
  { id := 5, dbSetId := 2, engine := "postgres", host := "db1", port := 5432,
    dbname := "app", username := "svc", isActive := true, createdAt := 0 }

/-- An approved apply run of `sampleMig` whose snapshots match it. -/
def sampleRun : Run :=
  { id := 30, runType := "apply", migrationId := 1, projectId := 1, env := "stg",
    dbSetId := 2, status := "approved", requestedBy := 9, requestedAt := 1,
    checksumUpAtRequest := "cs-up", checksumDownAtRequest := some "cs-down" }

/-- The single queued item of `sampleRun`, on `sampleTgt`. -/
def sampleItem : RunItem :=
  { id := 40, runId := 30, dbTargetId := 5, status := "queued" }

/-- An `approved` approval row for `sampleMig`. -/
def sampleApproval : Approval :=
  { id := 70, migrationId := 1, env := "stg", decision := "approved", comment := none,
    decidedBy := 8, decidedAt := 2, checksumUp := "cs-up", checksumDown := some "cs-down" }

/-- A catalog holding `sampleMig` together with its approval row. -/
def catWithApproval : Catalog :=
  { migrations := [sampleMig], approvals := [sampleApproval] }

/-- `sampleMig` after an update that only sets the tx mode (no SQL
change). -/
def modeMigSample : Migration :=
  { sampleMig with transactionMode := "no_transaction", updatedAt := 9 }

/-- A `create_migration` input with honest checksums downstream. -/
def createInputSample : CreateMigrationInput :=
  { projectId := 1, key := "20250101_001_t", name := "create t", jira := "",
    description := "", sqlUp := "CREATE TABLE t(id int);", sqlDown := some "DROP TABLE t;",
    transactionMode := "auto", createdBy := 9 }

/-- The migration `create_migration` builds from `createInputSample`
(at `now = 3`, fresh id 1), with its real computed checksums. -/
def createdMigSample : Migration :=
  { id := 1, projectId := 1, key := "20250101_001_t", name := "create t", jira := "",
    description := "", sqlUp := "CREATE TABLE t(id int);", sqlDown := some "DROP TABLE t;",
    checksumUp := checksum "CREATE TABLE t(id int);",
    checksumDown := some (checksum "DROP TABLE t;"), version := 1,
    transactionMode := "auto", createdBy := 9, createdAt := 3, updatedAt := 3 }

/-- `sampleMig` after an update that clears `sql_down` (at `now = 9`):
version bumped, checksums recomputed. -/
def updatedMigSample : Migration :=
  { sampleMig with sqlDown := none, checksumUp := checksum sampleMig.sqlUp,
                   checksumDown := none, version := 2, updatedAt := 9 }

/-- A catalog whose migration checksum has drifted past the pending
run's request snapshot ("cs-up-v2" vs snapshot "cs-up"). -/
def catDrifted : Catalog :=
  { migrations := [{ sampleMig with checksumUp := "cs-up-v2" }],
    runs := [{ sampleRun with status := "awaiting_approval" }] }

/-- Like `catDrifted` but the run is already `approved` (execution
stage). -/
def catDriftedApproved : Catalog :=
  { migrations := [{ sampleMig with checksumUp := "cs-up-v2" }], runs := [sampleRun] }

/-- A healthy catalog with the run awaiting approval. -/
def catAwaiting : Catalog :=
  { migrations := [sampleMig], runs := [{ sampleRun with status := "awaiting_approval" }] }

/-- A decision input for run 30 by manager 8. -/
def decisionInputSample : ApprovalDecisionInput :=
  { runId := 30, projectId := 1, actorId := 8, comment := "", decision := "approved" }

/-- The run object `ApproveRun` produces from `catAwaiting` at
`now = 9`. -/
def approvedRunSample : Run :=
  { sampleRun with status := "approved", approvedBy := some 8, approvedAt := some 9,
                   approvalComment := none }

/-- The approval row `ApproveRun` appends (fresh id 71, `now = 9`). -/
def approvalRowSample : Approval :=
  { id := 71, migrationId := 1, env := "stg", decision := "approved", comment := none,
    decidedBy := 8, decidedAt := 9, checksumUp := "cs-up", checksumDown := some "cs-down" }

/-- The catalog `ApproveRun` produces from `catAwaiting`. -/
def catAfterApprove : Catalog :=
  { migrations := [sampleMig], approvals := [approvalRowSample],
    runs := [approvedRunSample] }

/-- A catalog whose run was denied (terminal). -/
def catDenied : Catalog :=
  { migrations := [sampleMig], runs := [{ sampleRun with status := "denied" }] }

/-- A catalog ready for a run request: migration, db set, one active
target. -/
def catReady : Catalog :=
  { migrations := [sampleMig], dbSets := [sampleSet], dbTargets := [sampleTgt] }

/-- A run request for `sampleMig` on `sampleSet` in stg. -/
def requestInputSample : RequestRunInput :=
  { projectId := 1, migrationId := 1, dbSetId := 2, env := "stg", requestedBy := 9,
    runType := "apply" }

/-- The run `RequestRun` inserts from `requestInputSample` (fresh run
id 30, `now = 7`). -/
def requestedRunSample : Run :=
  { id := 30, runType := "apply", migrationId := 1, projectId := 1, env := "stg",
    dbSetId := 2, status := "awaiting_approval", requestedBy := 9, requestedAt := 7,
    checksumUpAtRequest := "cs-up", checksumDownAtRequest := some "cs-down" }

/-- `sampleMig` without a down script. -/
def migNoDown : Migration := { sampleMig with sqlDown := none, checksumDown := none }

/-- `catReady` but the migration has no down script. -/
def catReadyNoDown : Catalog := { catReady with migrations := [migNoDown] }

/-- The catalog `RequestRun` produces from `catReady`. -/
def catAfterRequest : Catalog :=
  { migrations := [sampleMig], dbSets := [sampleSet], dbTargets := [sampleTgt],
    runs := [requestedRunSample], runItems := [sampleItem] }

/-- An approved run with one queued item, ready to execute. -/
def catApprovedQueued : Catalog :=
  { migrations := [sampleMig], dbTargets := [sampleTgt], runs := [sampleRun],
    runItems := [sampleItem] }

/-- `sampleRun` after a fully successful execution by actor 9 at
`now = 100`. -/
def executedRunSample : Run :=
  { sampleRun with status := "executed", executedBy := some 9, startedAt := some 100,
                   finishedAt := some 100 }

/-- `sampleItem` after successful execution. -/
def executedItemSample : RunItem :=
  { sampleItem with status := "executed", startedAt := some 100, finishedAt := some 100 }

/-- The bookkeeping row a previous successful apply left on the
target. -/
def appliedBookRow : BookRow :=
  { migrationKey := "20250101_001_t", checksumUp := "cs-up",
    checksumDown := some "cs-down", appliedBy := "9", toolRunId := 20 }

/-- Target state after that previous apply. -/
def dbsApplied : List (Id × TargetDB) := [(5, { book := [appliedBookRow] })]

/-- An approved ROLLBACK run of `sampleMig` with one queued item. -/
def rollbackRunSample : Run := { sampleRun with runType := "rollback" }

/-- Catalog with the approved rollback run ready to execute. -/
def catRollbackApproved : Catalog :=
  { migrations := [sampleMig], dbTargets := [sampleTgt], runs := [rollbackRunSample],
    runItems := [sampleItem] }

/-! ## General lemmas -/

/-- `equalNullable` is reflexive. -/
theorem equalNullable_refl (a : Option String) : equalNullable a a = true := by
  cases a <;> simp [equalNullable]

/-- Mapping a function over an enumerated list that ignores the
indices is mapping over the plain list. -/
theorem enum_map_snd_field {α β : Type} (l : List α) (f : Nat × α → β) (g : α → β)
    (hfg : ∀ p : Nat × α, f p = g p.2) : l.enum.map f = l.map g := by
  have h1 : l.enum.map f = l.enum.map (fun p => g p.2) :=
    List.map_congr_left (fun a _ => hfg a)
  rw [h1, show (fun p : Nat × α => g p.2) = g ∘ Prod.snd from rfl,
     ← List.map_map, List.enum_map_snd]

/-- When `sqlChangedCalc` reports no change, the effective SQL fields
equal the current ones. -/
theorem sqlChangedCalc_false {sqlUp : String} {sqlDown : Option String}
    {current : Migration} (h : sqlChangedCalc sqlUp sqlDown current = false) :
    sqlUp = current.sqlUp ∧ sqlDown = current.sqlDown := by
  unfold sqlChangedCalc at h
  simp only [Bool.or_eq_false_iff] at h
  obtain ⟨⟨⟨h1, h2⟩, h3⟩, h4⟩ := h
  refine ⟨by simpa using h1, ?_⟩
  cases hs : sqlDown with
  | none =>
    cases hc : current.sqlDown with
    | none => rfl
    | some b => rw [hs, hc] at h2; simp at h2
  | some a =>
    cases hc : current.sqlDown with
    | none => rw [hs, hc] at h3; simp at h3
    | some b =>
      rw [hs, hc] at h4
      simp only [bne_eq_false_iff_eq] at h4
      rw [h4]

set_option maxRecDepth 10000 in
/-- The SHA-256 implementation agrees with a standard test vector
(FIPS 180-2: the digest of the ASCII string "abc"). -/
theorem sha256Hex_abc :
    SHA256.sha256Hex "abc" =
      "ba7816bf8f01cfea414140de5dae2223b00361a396177a9cb410ff61f20015ad" := by decide

set_option maxRecDepth 10000 in
/-- The SHA-256 implementation agrees with the two-block FIPS 180-2
test vector (a 56-byte message exercising the padding boundary). -/
theorem sha256Hex_two_blocks :
    SHA256.sha256Hex "abcdbcdecdefdefgefghfghighijhijkijkljklmklmnlmnomnopnopq" =
      "248d6a61d20638b8e5c026930c3e6039a33ce45964ff2167f6ecedd419db06c1" := by decide

/-- `hexChar` always yields a lowercase hex digit. -/
theorem hexChar_mem (n : Nat) : SHA256.hexChar n ∈ SHA256.hexDigits := by
  by_cases h : n < 16
  · interval_cases n <;> decide
  · have hlen : SHA256.hexDigits.length ≤ n := by
      have h16 : SHA256.hexDigits.length = 16 := by decide
      omega
    simp only [SHA256.hexChar, List.getD_eq_default _ _ hlen]
    decide

/-- Every character of a hex-encoded byte string is a lowercase hex
digit. -/
theorem hexEncode_chars (bs : List Nat) :
    ∀ ch ∈ (SHA256.hexEncode bs).data, ch ∈ SHA256.hexDigits := by
  induction bs with
  | nil => intro ch h; cases h
  | cons b rest ih =>
    intro ch h
    have h' : ch ∈ SHA256.byteHex b ++
        (rest.foldr (fun b acc => SHA256.byteHex b ++ acc) []) := h
    rcases List.mem_append.mp h' with h1 | h2
    · simp only [SHA256.byteHex, List.mem_cons, List.not_mem_nil, or_false] at h1
      rcases h1 with h1 | h1 <;> exact h1 ▸ hexChar_mem _
    · exact ih ch h2

/-! ## C10 — transaction-mode normalization -/

/-- C10: transaction-mode validation in `create_migration` and
`update_migration` is normalizing, not literal: an input that is empty
or whitespace-only is accepted and stored as `auto`; any input equal,
after trimming and lowercasing, to `auto`, `single_transaction` or
`no_transaction` is accepted as that mode; only inputs outside these
after normalization are rejected with the invalid-transaction-mode
error. -/
theorem c10_tx_mode_normalization (s : String) :
    (strTrim s = "" → normalizeTxMode s = "auto")
  ∧ (strToLower (strTrim s) = "auto" → normalizeTxMode s = "auto")
  ∧ (strToLower (strTrim s) = "single_transaction" →
       normalizeTxMode s = "single_transaction")
  ∧ (strToLower (strTrim s) = "no_transaction" → normalizeTxMode s = "no_transaction")
  ∧ (strToLower (strTrim s) ≠ "" → strToLower (strTrim s) ≠ "auto" →
       strToLower (strTrim s) ≠ "single_transaction" →
       strToLower (strTrim s) ≠ "no_transaction" → normalizeTxMode s = "")
  ∧ (∀ (c : Catalog) (now : Nat) (id : Id) (input : CreateMigrationInput),
       input.transactionMode = s →
       strTrim input.key ≠ "" → strTrim input.name ≠ "" → strTrim input.sqlUp ≠ "" →
       (normalizeTxMode s = "" → CreateMigration c now id input = .error .txModeInvalid)
       ∧ (normalizeTxMode s ≠ "" →
          ∃ c1 m, CreateMigration c now id input = .ok (c1, m)
            ∧ m.transactionMode = normalizeTxMode s))
  ∧ (∀ (c : Catalog) (pid mid : Id) (uinput : UpdateMigrationInput) (unow : Nat)
       (current : Migration),
       uinput.transactionMode = some s → normalizeTxMode s = "" →
       GetMigration c pid mid = .ok current →
       UpdateMigration c pid mid uinput unow = .error .txModeInvalid)
  ∧ (∀ (c : Catalog) (pid mid : Id) (uinput : UpdateMigrationInput) (unow : Nat)
       (c1 : Catalog) (m : Migration) (ch : Bool),
       uinput.transactionMode = some s → normalizeTxMode s ≠ "" →
       UpdateMigration c pid mid uinput unow = .ok (c1, m, ch) →
       m.transactionMode = normalizeTxMode s) := by
  refine ⟨?_, ?_, ?_, ?_, ?_, ?_, ?_, ?_⟩
  · intro h
    have h' : strToLower (strTrim s) = "" := by rw [h]; rfl
    simp [normalizeTxMode, h']
  · intro h; simp [normalizeTxMode, h]
  · intro h; simp [normalizeTxMode, h]
  · intro h; simp [normalizeTxMode, h]
  · intro h1 h2 h3 h4; simp [normalizeTxMode, h1, h2, h3, h4]
  · intro c now id input hmode hk hn hs
    constructor
    · intro hinv
      simp [CreateMigration, hk, hn, hs, hmode, hinv]
    · intro hval
      unfold CreateMigration
      rw [if_neg hk, if_neg hn, if_neg hs, hmode]
      dsimp only []
      rw [if_neg hval]
      exact ⟨_, _, rfl, rfl⟩
  · intro c pid mid uinput unow current hmode hinv hget
    have htx : txModePatch uinput current = .error .txModeInvalid := by
      unfold txModePatch
      rw [hmode]
      dsimp only []
      rw [if_pos hinv]
    unfold UpdateMigration
    rw [hget]
    dsimp only []
    rw [htx]
  · intro c pid mid uinput unow c1 m ch hmode hval hupd
    unfold UpdateMigration at hupd
    cases hget : GetMigration c pid mid with
    | error e => rw [hget] at hupd; exact absurd hupd (by simp)
    | ok current =>
      have htx : txModePatch uinput current = .ok (normalizeTxMode s) := by
        unfold txModePatch
        rw [hmode]
        dsimp only []
        rw [if_neg hval]
      rw [hget] at hupd
      dsimp only [] at hupd
      rw [htx] at hupd
      dsimp only [] at hupd
      split at hupd; · exact absurd hupd (by simp)
      split at hupd; · exact absurd hupd (by simp)
      rw [Except.ok.injEq, Prod.mk.injEq, Prod.mk.injEq] at hupd
      obtain ⟨-, hm, -⟩ := hupd
      rw [← hm]

/-- C10 witness: whitespace-only mode stored as `auto`; an upper-case,
padded `single_transaction` accepted; `create_migration` accepts a
blank mode; `update_migration` normalizes an upper-case padded
`no_transaction`. -/
theorem c10_witness :
    normalizeTxMode " " = "auto"
  ∧ normalizeTxMode "  SINGLE_TRANSACTION " = "single_transaction"
  ∧ (∃ c1 m, CreateMigration {} 0 1
        { projectId := 1, key := "k", name := "n", jira := "", description := "",
          sqlUp := "SELECT 1;", sqlDown := none, transactionMode := " ",
          createdBy := 9 } = .ok (c1, m)
      ∧ m.transactionMode = normalizeTxMode " ")
  ∧ modeMigSample.transactionMode = normalizeTxMode " NO_TRANSACTION " := by
  refine ⟨(c10_tx_mode_normalization " ").1 (by decide),
          (c10_tx_mode_normalization "  SINGLE_TRANSACTION ").2.2.1 (by decide),
          ((c10_tx_mode_normalization " ").2.2.2.2.2.1 {} 0 1 _ rfl
            (by decide) (by decide) (by decide)).2 (by decide),
          (c10_tx_mode_normalization " NO_TRANSACTION ").2.2.2.2.2.2.2
            catWithApproval 1 1 { transactionMode := some " NO_TRANSACTION " } 9
            { catWithApproval with migrations := [modeMigSample] } modeMigSample false
            rfl (by decide) (by decide)⟩

/-! ## C9 — checksum computation and creation invariants -/

/-- C9: every migration produced by `create_migration` has
`checksum_up = SHA256-hex(sql_up)`, `checksum_down` present iff
`sql_down` is present and then equal to `SHA256-hex(sql_down)` (the
`Option.map` equation states exactly that), and `version = 1`;
`create_migration` rejects an empty key, empty name, empty `sql_up`
and an unknown tx mode; and `update_migration` preserves the checksum
invariant. Every character of a checksum is a lowercase hex digit. -/
theorem c9_migration_checksums (c : Catalog) (now : Nat) (id : Id)
    (input : CreateMigrationInput) :
    (∀ c1 m, CreateMigration c now id input = .ok (c1, m) →
       m.sqlUp = input.sqlUp ∧ m.sqlDown = input.sqlDown
       ∧ m.checksumUp = checksum m.sqlUp
       ∧ m.checksumDown = m.sqlDown.map checksum
       ∧ m.version = 1)
  ∧ (∀ s, ∀ ch ∈ (checksum s).data, ch ∈ SHA256.hexDigits)
  ∧ (strTrim input.key = "" → CreateMigration c now id input = .error .migrationKeyEmpty)
  ∧ (strTrim input.key ≠ "" → strTrim input.name = "" →
       CreateMigration c now id input = .error .migrationNameEmpty)
  ∧ (strTrim input.key ≠ "" → strTrim input.name ≠ "" → strTrim input.sqlUp = "" →
       CreateMigration c now id input = .error .migrationSQLMissing)
  ∧ (strTrim input.key ≠ "" → strTrim input.name ≠ "" → strTrim input.sqlUp ≠ "" →
       normalizeTxMode input.transactionMode = "" →
       CreateMigration c now id input = .error .txModeInvalid)
  ∧ (∀ (c' : Catalog) (pid mid : Id) (uinput : UpdateMigrationInput) (unow : Nat)
       (current : Migration) (c1 : Catalog) (m : Migration) (ch : Bool),
       GetMigration c' pid mid = .ok current →
       current.checksumUp = checksum current.sqlUp →
       current.checksumDown = current.sqlDown.map checksum →
       UpdateMigration c' pid mid uinput unow = .ok (c1, m, ch) →
       m.checksumUp = checksum m.sqlUp ∧ m.checksumDown = m.sqlDown.map checksum) := by
  refine ⟨?_, ?_, ?_, ?_, ?_, ?_, ?_⟩
  · intro c1 m h
    unfold CreateMigration at h
    dsimp only [] at h
    split at h; · exact absurd h (by simp)
    split at h; · exact absurd h (by simp)
    split at h; · exact absurd h (by simp)
    split at h; · exact absurd h (by simp)
    rw [Except.ok.injEq, Prod.mk.injEq] at h
    rw [← h.2]
    exact ⟨rfl, rfl, rfl, rfl, rfl⟩
  · intro s; exact hexEncode_chars _
  · intro h; simp [CreateMigration, h]
  · intro h1 h2; simp [CreateMigration, h1, h2]
  · intro h1 h2 h3; simp [CreateMigration, h1, h2, h3]
  · intro h1 h2 h3 h4; simp [CreateMigration, h1, h2, h3, h4]
  · intro c' pid mid uinput unow current c1 m ch hget hcu hcd hupd
    unfold UpdateMigration at hupd
    rw [hget] at hupd
    dsimp only [] at hupd
    split at hupd; · exact absurd hupd (by simp)
    split at hupd; · exact absurd hupd (by simp)
    split at hupd; · exact absurd hupd (by simp)
    rw [Except.ok.injEq, Prod.mk.injEq, Prod.mk.injEq] at hupd
    obtain ⟨-, hm, -⟩ := hupd
    rw [← hm]
    cases hq : sqlChangedCalc (coalesceString uinput.sqlUp current.sqlUp)
        (sqlDownPatch uinput current) current with
    | true => simp [hq]
    | false =>
      obtain ⟨hu, hd⟩ := sqlChangedCalc_false hq
      simp only [hq, if_false, Bool.false_eq_true]
      exact ⟨by rw [hu, ← hcu], by rw [hd, ← hcd]⟩

/-- C9 witness: a concrete `create_migration` call yields real
checksums, version 1; a blank key is rejected. -/
theorem c9_witness :
    createdMigSample.checksumUp = checksum createdMigSample.sqlUp
  ∧ createdMigSample.checksumDown = createdMigSample.sqlDown.map checksum
  ∧ createdMigSample.version = 1
  ∧ CreateMigration {} 3 1 { createInputSample with key := " " }
      = .error .migrationKeyEmpty := by
  have h := (c9_migration_checksums {} 3 1 createInputSample).1
    { migrations := [createdMigSample] } createdMigSample (by rfl)
  have h2 := (c9_migration_checksums {} 3 1 { createInputSample with key := " " }).2.2.1
    (by decide)
  exact ⟨h.2.2.1, h.2.2.2.1, h.2.2.2.2, h2⟩

/-! ## C2 — approval invalidation on SQL edit -/

/-- C2 counterexample: after the store call `UpdateMigration` returns
with `sql_changed = true` (here: `sql_down` cleared), the Approval row
for the migration still exists in the resulting catalog state — the
deletion is NOT part of the update's transaction, so this state is
observable (and, in Go, persists entirely when the separate delete
fails, which is only logged). -/
theorem c2_counterexample :
    ((UpdateMigration catWithApproval 1 1 { sqlDown := some "" } 9).toOption.map
      fun r => (r.2.2, (r.1.approvals.filter fun a => a.migrationId == 1).length))
    = some (true, 1) := by rfl

/-- C2 amended: `update_migration` recomputes checksums and increments
`version` in its single `UPDATE` statement but never touches the
`approvals` table; the HTTP update handler then deletes every Approval
row of the migration in a separate, subsequent, best-effort store
call, so after the handler's update flow returns with
`sql_changed = true` no Approval rows exist for that migration id. -/
theorem c2_update_flow_invalidates_approvals (c : Catalog) (pid id : Id)
    (input : UpdateMigrationInput) (now : Nat) :
    (∀ c1 m ch, UpdateMigration c pid id input now = .ok (c1, m, ch) →
       c1.approvals = c.approvals)
  ∧ (∀ c2 m ch, MigrationHandlerUpdate c pid id input now = .ok (c2, m, ch) →
       ch = true → ∀ a ∈ c2.approvals, a.migrationId ≠ m.id) := by
  constructor
  · intro c1 m ch h
    unfold UpdateMigration at h
    cases hget : GetMigration c pid id with
    | error e => rw [hget] at h; exact absurd h (by simp)
    | ok current =>
      rw [hget] at h
      dsimp only [] at h
      split at h; · exact absurd h (by simp)
      split at h; · exact absurd h (by simp)
      split at h; · exact absurd h (by simp)
      rw [Except.ok.injEq, Prod.mk.injEq, Prod.mk.injEq] at h
      obtain ⟨hc1, -, -⟩ := h
      rw [← hc1]
  · intro c2 m ch h hch a ha
    unfold MigrationHandlerUpdate at h
    cases hup : UpdateMigration c pid id input now with
    | error e => rw [hup] at h; exact absurd h (by simp)
    | ok t =>
      obtain ⟨c1, m1, ch1⟩ := t
      rw [hup] at h
      dsimp only [] at h
      rw [Except.ok.injEq, Prod.mk.injEq, Prod.mk.injEq] at h
      obtain ⟨hc2, hm, hch1⟩ := h
      rw [hch] at hch1
      rw [hch1] at hc2
      rw [← hc2] at ha
      simp only [if_true, DeleteApprovalsForMigration, List.mem_filter] at ha
      have := ha.2
      rw [hm] at this
      simpa [bne_iff_ne] using this

/-- C2 witness for the amended claim: the handler flow on
`catWithApproval`, clearing `sql_down`, ends with zero Approval rows. -/
theorem c2_witness :
    ∀ a ∈ ({ migrations := [updatedMigSample] } : Catalog).approvals,
      a.migrationId ≠ updatedMigSample.id :=
  (c2_update_flow_invalidates_approvals catWithApproval 1 1 { sqlDown := some "" } 9).2
    { migrations := [updatedMigSample] } updatedMigSample true (by rfl) rfl

/-! ## C3 — checksum revalidation at the state-machine gates -/

/-- C3 counterexample: `decide = denied` performs NO checksum re-read.
In `catDrifted` the current `checksum_up` is "cs-up-v2" while the
pending run's snapshot is "cs-up", yet `DenyRun` succeeds and moves
the run to `denied` — a transition succeeding while the checksums
diverge, contradicting the claim that every transition fails with
`checksum_mismatch` in that situation. -/
theorem c3_counterexample :
    ((DenyRun catDrifted { decisionInputSample with decision := "denied" } 71 9).toOption.map
       fun r => r.2.status) = some "denied"
  ∧ ((GetMigration catDrifted 1 1).toOption.map fun m => m.checksumUp) = some "cs-up-v2"
  ∧ ((getRun catDrifted 30 1).toOption.map fun r => (r.status, r.checksumUpAtRequest))
      = some ("awaiting_approval", "cs-up") := by decide

/-- C3 amended: the `decide = approved` and start-of-execution
transitions re-read the migration's current checksums and fail with
`checksum_mismatch` (making no state change) whenever they no longer
match the run's request snapshot; `decide = denied` performs no such
re-validation. -/
theorem c3_checksum_gate_on_approve_and_execute (c : Catalog) :
    (∀ (input : ApprovalDecisionInput) (aid now : Id) (run : Run) (mig : Migration),
       getRun c input.runId input.projectId = .ok run →
       run.status = "awaiting_approval" →
       GetMigration c run.projectId run.migrationId = .ok mig →
       (mig.checksumUp ≠ run.checksumUpAtRequest
         ∨ equalNullable mig.checksumDown run.checksumDownAtRequest = false) →
       ApproveRun c input aid now = .error .checksumMismatch)
  ∧ (∀ (dbs : List (Id × TargetDB)) (execFails : String → Bool) (pid rid aid now : Id)
       (rwi : RunWithItems) (mig : Migration),
       GetRunWithItems c pid rid = .ok rwi →
       rwi.run.status = "approved" →
       GetMigration c pid rwi.run.migrationId = .ok mig →
       (mig.checksumUp ≠ rwi.run.checksumUpAtRequest
         ∨ equalNullable mig.checksumDown rwi.run.checksumDownAtRequest = false) →
       ExecuteRun c dbs execFails pid rid aid now
         = { catalog := c, dbs := dbs, result := .error .checksumMismatch }) := by
  constructor
  · intro input aid now run mig hrun hst hmig hne
    have hcond : (mig.checksumUp != run.checksumUpAtRequest
        || !(equalNullable mig.checksumDown run.checksumDownAtRequest)) = true := by
      rcases hne with h | h
      · simp [bne_iff_ne, h]
      · simp [h]
    unfold ApproveRun
    rw [hrun]
    dsimp only []
    rw [if_neg (by simp [hst]), hmig]
    dsimp only []
    rw [if_pos hcond]
  · intro dbs ef pid rid aid now rwi mig hget hst hmig hne
    have hcond : (mig.checksumUp != rwi.run.checksumUpAtRequest
        || !(equalNullable mig.checksumDown rwi.run.checksumDownAtRequest)) = true := by
      rcases hne with h | h
      · simp [bne_iff_ne, h]
      · simp [h]
    unfold ExecuteRun
    rw [hget]
    dsimp only []
    rw [if_neg (by simp [hst]), hmig]
    dsimp only []
    rw [if_pos hcond]

/-- C3 witness for the amended claim: concrete drifted catalogs make
the approve gate and the execute gate fail with `checksum_mismatch`. -/
theorem c3_witness :
    ApproveRun catDrifted decisionInputSample 71 9 = .error .checksumMismatch
  ∧ ExecuteRun catDriftedApproved [] (fun _ => false) 1 30 9 100
      = { catalog := catDriftedApproved, dbs := [],
          result := .error .checksumMismatch } :=
  ⟨(c3_checksum_gate_on_approve_and_execute catDrifted).1 decisionInputSample 71 9
     { sampleRun with status := "awaiting_approval" }
     { sampleMig with checksumUp := "cs-up-v2" } (by rfl) rfl (by rfl)
     (Or.inl (by decide)),
   (c3_checksum_gate_on_approve_and_execute catDriftedApproved).2 [] (fun _ => false)
     1 30 9 100
     { run := sampleRun, items := [] }
     { sampleMig with checksumUp := "cs-up-v2" } (by rfl) rfl (by rfl)
     (Or.inl (by decide))⟩

/-! ## C4 — the decide gate and the approval insert -/

/-- C4: `decide` is permitted only on a run in `awaiting_approval`
(both decisions fail with the invalid-status error otherwise, making
no state change), and a successful `decide = approved` sets the run's
status to `approved` and appends exactly one Approval row whose
`checksum_up_at_decision` equals the run's `checksum_up_at_request`
and whose down-checksum is nullable-equal to
`checksum_down_at_request` (both writes inside one transaction in the
Go store, one atomic step here). -/
theorem c4_decide_gate_and_approval_insert (c : Catalog)
    (input : ApprovalDecisionInput) (aid now : Id) :
    (∀ run, getRun c input.runId input.projectId = .ok run →
       run.status ≠ "awaiting_approval" →
       ApproveRun c input aid now = .error .runInvalidStatus
       ∧ DenyRun c input aid now = .error .runInvalidStatus)
  ∧ (∀ c1 run1, ApproveRun c input aid now = .ok (c1, run1) →
       run1.status = "approved"
       ∧ ∃ a, c1.approvals = c.approvals ++ [a]
           ∧ a.decision = "approved"
           ∧ a.checksumUp = run1.checksumUpAtRequest
           ∧ equalNullable a.checksumDown run1.checksumDownAtRequest = true
           ∧ c1.runs = c.runs.map fun r => if r.id == input.runId then run1 else r) := by
  constructor
  · intro run hrun hne
    have hcond : (run.status != "awaiting_approval") = true := by
      simp [bne_iff_ne, hne]
    constructor
    · unfold ApproveRun
      rw [hrun]
      dsimp only []
      rw [if_pos hcond]
    · unfold DenyRun
      rw [hrun]
      dsimp only []
      rw [if_pos hcond]
  · intro c1 run1 h
    unfold ApproveRun at h
    cases hrun : getRun c input.runId input.projectId with
    | error e => rw [hrun] at h; exact absurd h (by simp)
    | ok run =>
      rw [hrun] at h
      dsimp only [] at h
      split at h; · exact absurd h (by simp)
      cases hmig : GetMigration c run.projectId run.migrationId with
      | error e => rw [hmig] at h; exact absurd h (by simp)
      | ok mig =>
        rw [hmig] at h
        dsimp only [] at h
        split at h; · exact absurd h (by simp)
        rw [Except.ok.injEq, Prod.mk.injEq] at h
        obtain ⟨hc1, hrun1⟩ := h
        rw [← hc1, ← hrun1]
        exact ⟨rfl, _, rfl, rfl, rfl, equalNullable_refl _, rfl⟩

/-- C4 witness: approving the pending run of `catAwaiting` yields the
approved run and exactly one new approval row carrying the snapshot
checksums. -/
theorem c4_witness :
    approvedRunSample.status = "approved"
  ∧ ∃ a, catAfterApprove.approvals = catAwaiting.approvals ++ [a]
      ∧ a.decision = "approved"
      ∧ a.checksumUp = approvedRunSample.checksumUpAtRequest
      ∧ equalNullable a.checksumDown approvedRunSample.checksumDownAtRequest = true
      ∧ catAfterApprove.runs = catAwaiting.runs.map fun r =>
          if r.id == decisionInputSample.runId then approvedRunSample else r :=
  (c4_decide_gate_and_approval_insert catAwaiting decisionInputSample 71 9).2
    catAfterApprove approvedRunSample (by rfl)

/-! ## C5 — run requests -/

/-- C5: `request_run` requires env ∈ {daily, stg, prd} (after
normalization) and a db set of the same project and env; a rollback
request fails with the missing-`sql_down` error when the migration has
no (or only blank) `sql_down`; zero active targets fail with the
no-active-targets error; otherwise one transaction inserts the run
with status `awaiting_approval`, the checksum snapshots copied from
the migration, and exactly one `queued` item per active target. -/
theorem c5_request_run (c : Catalog) (input : RequestRunInput) (runId : Id)
    (freshItemId : Nat → Id) (now : Nat) :
    (strToLower (strTrim input.env) ≠ "daily" → strToLower (strTrim input.env) ≠ "stg" →
     strToLower (strTrim input.env) ≠ "prd" →
       RequestRun c input runId freshItemId now = .error .runEnvInvalid)
  ∧ (∀ mig,
       (strToLower (strTrim input.env) != "daily" && strToLower (strTrim input.env) != "stg"
         && strToLower (strTrim input.env) != "prd") = false →
       GetMigration c input.projectId input.migrationId = .ok mig →
       normRunType input.runType = "rollback" →
       (mig.sqlDown = none ∨ ∃ d, mig.sqlDown = some d ∧ strTrim d = "") →
       RequestRun c input runId freshItemId now = .error .rollbackMissingSQL)
  ∧ (∀ mig set,
       (strToLower (strTrim input.env) != "daily" && strToLower (strTrim input.env) != "stg"
         && strToLower (strTrim input.env) != "prd") = false →
       (normRunType input.runType != "apply"
         && normRunType input.runType != "rollback") = false →
       GetMigration c input.projectId input.migrationId = .ok mig →
       ((normRunType input.runType == "rollback")
         && (match mig.sqlDown with
             | none => true
             | some d => strTrim d == "")) = false →
       GetDBSet c input.dbSetId = .ok set →
       (set.projectId ≠ input.projectId →
          RequestRun c input runId freshItemId now = .error .dbSetNotFound)
       ∧ (set.projectId = input.projectId → set.env ≠ strToLower (strTrim input.env) →
          RequestRun c input runId freshItemId now = .error .dbSetEnvMismatch)
       ∧ (set.projectId = input.projectId → set.env = strToLower (strTrim input.env) →
          (ListDBTargetsBySet c input.dbSetId).filter (fun t => t.isActive) = [] →
          RequestRun c input runId freshItemId now = .error .runNoTargets))
  ∧ (∀ c1 rwi, RequestRun c input runId freshItemId now = .ok (c1, rwi) →
       rwi.run.status = "awaiting_approval"
       ∧ (∃ mig, GetMigration c input.projectId input.migrationId = .ok mig
           ∧ rwi.run.checksumUpAtRequest = mig.checksumUp
           ∧ rwi.run.checksumDownAtRequest = mig.checksumDown)
       ∧ rwi.items.map (fun it => it.dbTargetId)
           = ((ListDBTargetsBySet c input.dbSetId).filter (fun t => t.isActive)).map
               (fun t => t.id)
       ∧ (∀ it ∈ rwi.items, it.status = "queued" ∧ it.runId = rwi.run.id)
       ∧ c1.runs = c.runs ++ [rwi.run]
       ∧ c1.runItems = c.runItems ++ rwi.items
       ∧ ((ListDBTargetsBySet c input.dbSetId).filter (fun t => t.isActive)) ≠ []) := by
  refine ⟨?_, ?_, ?_, ?_⟩
  · intro h1 h2 h3
    unfold RequestRun
    rw [if_pos (by simp [bne_iff_ne, h1, h2, h3])]
  · intro mig henv hmig hrt hdown
    have hcond : ((normRunType input.runType == "rollback")
        && (match mig.sqlDown with
            | none => true
            | some d => strTrim d == "")) = true := by
      rcases hdown with h | ⟨d, hd, hblank⟩
      · simp [hrt, h]
      · simp [hrt, hd, hblank]
    unfold RequestRun
    rw [if_neg (by simp [henv])]
    dsimp only []
    rw [if_neg (by simp [hrt]), hmig]
    dsimp only []
    rw [if_pos hcond]
  · intro mig set henv hrt hmig hdown hset
    refine ⟨?_, ?_, ?_⟩
    · intro hproj
      unfold RequestRun
      rw [if_neg (by simp [henv])]
      dsimp only []
      rw [if_neg (by simp [hrt]), hmig]
      dsimp only []
      rw [if_neg (by simp [hdown]), hset]
      dsimp only []
      rw [if_pos (by simp [bne_iff_ne, hproj])]
    · intro hproj henvne
      unfold RequestRun
      rw [if_neg (by simp [henv])]
      dsimp only []
      rw [if_neg (by simp [hrt]), hmig]
      dsimp only []
      rw [if_neg (by simp [hdown]), hset]
      dsimp only []
      rw [if_neg (by simp [bne_iff_ne, hproj]), if_pos (by simp [bne_iff_ne, henvne])]
    · intro hproj henveq hempty
      unfold RequestRun
      rw [if_neg (by simp [henv])]
      dsimp only []
      rw [if_neg (by simp [hrt]), hmig]
      dsimp only []
      rw [if_neg (by simp [hdown]), hset]
      dsimp only []
      rw [if_neg (by simp [bne_iff_ne, hproj]), if_neg (by simp [bne_iff_ne, henveq])]
      rw [if_pos (by simp [hempty])]
  · intro c1 rwi h
    unfold RequestRun at h
    dsimp only [] at h
    by_cases hA : (strToLower (strTrim input.env) != "daily"
        && strToLower (strTrim input.env) != "stg"
        && strToLower (strTrim input.env) != "prd") = true
    · rw [if_pos hA] at h; exact absurd h (by simp)
    rw [if_neg hA] at h
    by_cases hB : (normRunType input.runType != "apply"
        && normRunType input.runType != "rollback") = true
    · rw [if_pos hB] at h; exact absurd h (by simp)
    rw [if_neg hB] at h
    cases hmig : GetMigration c input.projectId input.migrationId with
    | error e => rw [hmig] at h; exact absurd h (by simp)
    | ok mig =>
      rw [hmig] at h
      dsimp only [] at h
      by_cases hC : ((normRunType input.runType == "rollback")
          && (match mig.sqlDown with
              | none => true
              | some d => strTrim d == "")) = true
      · rw [if_pos hC] at h; exact absurd h (by simp)
      rw [if_neg hC] at h
      cases hset : GetDBSet c input.dbSetId with
      | error e => rw [hset] at h; exact absurd h (by simp)
      | ok set =>
        rw [hset] at h
        dsimp only [] at h
        by_cases hD : (set.projectId != input.projectId) = true
        · rw [if_pos hD] at h; exact absurd h (by simp)
        rw [if_neg hD] at h
        by_cases hE : (set.env != strToLower (strTrim input.env)) = true
        · rw [if_pos hE] at h; exact absurd h (by simp)
        rw [if_neg hE] at h
        by_cases hF : ((ListDBTargetsBySet c input.dbSetId).filter
            (fun t => t.isActive)).isEmpty = true
        · rw [if_pos hF] at h; exact absurd h (by simp)
        rw [if_neg hF] at h
        have hne := hF
        · rw [Except.ok.injEq, Prod.mk.injEq] at h
          obtain ⟨hc1, hrwi⟩ := h
          rw [← hc1, ← hrwi]
          refine ⟨rfl, ⟨mig, rfl, rfl, rfl⟩, ?_, ?_, rfl, rfl, ?_⟩
          · dsimp only []
            rw [List.map_map]
            exact enum_map_snd_field _ _ _ (fun p => rfl)
          · intro it hit
            dsimp only [] at hit
            simp only [List.mem_map] at hit
            obtain ⟨p, hp, hpe⟩ := hit
            rw [← hpe]
            exact ⟨rfl, rfl⟩
          · intro hnil
            rw [hnil] at hne
            exact hne rfl

/-- C5 witness: an invalid env is rejected; a rollback without
`sql_down` is rejected; a concrete successful request creates the
awaiting run and exactly one queued item for the single active
target. -/
theorem c5_witness :
    RequestRun catReady { requestInputSample with env := "qa" } 30 (fun i => 40 + i) 7
      = .error .runEnvInvalid
  ∧ RequestRun catReadyNoDown
      { requestInputSample with runType := "rollback" } 30 (fun i => 40 + i) 7
      = .error .rollbackMissingSQL
  ∧ requestedRunSample.status = "awaiting_approval"
  ∧ [sampleItem].map (fun it => it.dbTargetId)
      = ((ListDBTargetsBySet catReady 2).filter (fun t => t.isActive)).map
          (fun t => t.id)
  ∧ (∀ it ∈ [sampleItem], it.status = "queued" ∧ it.runId = 30) := by
  have h4 := (c5_request_run catReady requestInputSample 30 (fun i => 40 + i) 7).2.2.2
    catAfterRequest { run := requestedRunSample, items := [sampleItem] } (by rfl)
  exact ⟨(c5_request_run catReady { requestInputSample with env := "qa" } 30
            (fun i => 40 + i) 7).1 (by decide) (by decide) (by decide),
         (c5_request_run catReadyNoDown
            { requestInputSample with runType := "rollback" } 30
            (fun i => 40 + i) 7).2.1 migNoDown
            (by decide) (by rfl) (by decide) (Or.inl rfl),
         h4.1, h4.2.2.1, fun it hit => h4.2.2.2.1 it hit⟩

/-! ## C6 — execute preconditions, in order, without writes -/

/-- C6: `execute(run_id, actor_id)` checks (1) run exists, (2) status
is `approved`, (3) the migration's current checksums equal the request
snapshot, in this order; each failure returns the corresponding error
(run-not-found; the invalid-status error `"run must be approved before
execution"`; `checksum_mismatch`) and leaves the catalog — the run's
status and items — and the target states unmodified. -/
theorem c6_execute_preconditions (c : Catalog) (dbs : List (Id × TargetDB))
    (execFails : String → Bool) (pid rid aid now : Id) :
    (GetRunWithItems c pid rid = .error .runNotFound →
       ExecuteRun c dbs execFails pid rid aid now
         = { catalog := c, dbs := dbs, result := .error .runNotFound })
  ∧ (∀ rwi, GetRunWithItems c pid rid = .ok rwi → rwi.run.status ≠ "approved" →
       ExecuteRun c dbs execFails pid rid aid now
         = { catalog := c, dbs := dbs, result := .error .runMustBeApproved })
  ∧ (∀ rwi mig, GetRunWithItems c pid rid = .ok rwi → rwi.run.status = "approved" →
       GetMigration c pid rwi.run.migrationId = .ok mig →
       (mig.checksumUp ≠ rwi.run.checksumUpAtRequest
         ∨ equalNullable mig.checksumDown rwi.run.checksumDownAtRequest = false) →
       ExecuteRun c dbs execFails pid rid aid now
         = { catalog := c, dbs := dbs, result := .error .checksumMismatch }) := by
  refine ⟨?_, ?_, ?_⟩
  · intro h
    unfold ExecuteRun
    rw [h]
  · intro rwi h hne
    unfold ExecuteRun
    rw [h]
    dsimp only []
    rw [if_pos (by simp [bne_iff_ne, hne])]
  · intro rwi mig h hst hmig hne
    have hcond : (mig.checksumUp != rwi.run.checksumUpAtRequest
        || !(equalNullable mig.checksumDown rwi.run.checksumDownAtRequest)) = true := by
      rcases hne with h' | h'
      · simp [bne_iff_ne, h']
      · simp [h']
    unfold ExecuteRun
    rw [h]
    dsimp only []
    rw [if_neg (by simp [hst]), hmig]
    dsimp only []
    rw [if_pos hcond]

/-- C6 witness: a missing run, a denied run and a drifted catalog each
fail with the corresponding error and unchanged state. -/
theorem c6_witness :
    ExecuteRun {} [] (fun _ => false) 1 30 9 100
      = { catalog := {}, dbs := [], result := .error .runNotFound }
  ∧ ExecuteRun catDenied [] (fun _ => false) 1 30 9 100
      = { catalog := catDenied, dbs := [], result := .error .runMustBeApproved }
  ∧ ExecuteRun catDriftedApproved [(5, {})] (fun _ => false) 1 30 9 100
      = { catalog := catDriftedApproved, dbs := [(5, {})],
          result := .error .checksumMismatch } :=
  ⟨(c6_execute_preconditions {} [] (fun _ => false) 1 30 9 100).1 (by rfl),
   (c6_execute_preconditions catDenied [] (fun _ => false) 1 30 9 100).2.1
     { run := { sampleRun with status := "denied" }, items := [] } (by rfl) (by decide),
   (c6_execute_preconditions catDriftedApproved [(5, {})] (fun _ => false) 1 30 9 100).2.2
     { run := sampleRun, items := [] } { sampleMig with checksumUp := "cs-up-v2" }
     (by rfl) rfl (by rfl) (Or.inl (by decide))⟩

/-! ## C7 — final run status versus item statuses -/

/-- A successful `GetRunWithItems` returns the run found under
`(rid, pid)` together with its items in id order. -/
theorem GetRunWithItems_ok {c : Catalog} {pid rid : Id} {rwi : RunWithItems}
    (h : GetRunWithItems c pid rid = .ok rwi) :
    rwi.items = listRunItems c rid ∧ rwi.run.id = rid ∧ rwi.run.projectId = pid := by
  unfold GetRunWithItems at h
  cases hr : getRun c rid pid with
  | error e => rw [hr] at h; exact absurd h (by simp)
  | ok run =>
    rw [hr] at h
    dsimp only [] at h
    rw [Except.ok.injEq] at h
    unfold getRun at hr
    cases hf : c.runs.find? (fun r => r.id == rid && r.projectId == pid) with
    | none => rw [hf] at hr; exact absurd hr (by simp)
    | some r =>
      rw [hf] at hr
      dsimp only [] at hr
      rw [Except.ok.injEq] at hr
      have hp := List.find?_some hf
      simp only [Bool.and_eq_true, beq_iff_eq] at hp
      rw [← h, ← hr]
      exact ⟨by rw [hp.1], hp.1, hp.2⟩

/-- The executor's loop invariant: starting with `firstErr = none` and
only executed/skipped items processed so far, the loop either finishes
clean — every processed item `executed` or `skipped` — or stops with
`firstErr` set and a `failed` item among the processed ones. -/
theorem execLoop_status (run : Run) (mig : Migration) (ef : String → Bool) (now : Nat) :
    ∀ (items : List RunItem) (st : ExecState),
      (∀ it ∈ items, it.status = "queued") →
      (∀ it ∈ st.doneItems, it.status = "executed" ∨ it.status = "skipped") →
      st.firstErr = none →
      ((execLoop run mig ef now items st).firstErr = none
        ∧ ∀ it ∈ (execLoop run mig ef now items st).doneItems,
            it.status = "executed" ∨ it.status = "skipped")
      ∨ ((execLoop run mig ef now items st).firstErr ≠ none
        ∧ ∃ it ∈ (execLoop run mig ef now items st).doneItems, it.status = "failed") := by
  intro items
  induction items with
  | nil => intro st hq hd he; exact Or.inl ⟨he, hd⟩
  | cons item rest ih =>
    intro st hq hd he
    have hqi : item.status = "queued" := hq item (List.mem_cons_self _ _)
    simp only [execLoop]
    rw [if_neg (by simp [hqi])]
    cases hex : executeItem (updateRunItemStatusIn st.catalog item.id "running" none none now)
        run { item with status := "running", startedAt := some now } mig st.dbs ef with
    | ok dbs1 =>
      exact ih _ (fun it hit => hq it (List.mem_cons_of_mem _ hit))
        (by intro it hit
            rcases List.mem_append.mp hit with h1 | h2
            · exact hd it h1
            · simp only [List.mem_singleton] at h2
              rw [h2]
              exact Or.inl rfl)
        he
    | error e =>
      cases e
      case alreadyApplied =>
        exact ih _ (fun it hit => hq it (List.mem_cons_of_mem _ hit))
          (by intro it hit
              rcases List.mem_append.mp hit with h1 | h2
              · exact hd it h1
              · simp only [List.mem_singleton] at h2
                rw [h2]
                exact Or.inr rfl)
          he
      all_goals
        exact Or.inr ⟨by simp, ⟨_, List.mem_append.mpr (Or.inl
          (List.mem_append.mpr (Or.inr (List.mem_cons_self _ _)))), rfl⟩⟩

/-- Clean-loop corollary, keyed on the loop's own `firstErr`. -/
theorem execLoop_firstErr_none {run : Run} {mig : Migration} {ef : String → Bool}
    {now : Nat} {items : List RunItem} {st : ExecState}
    (hq : ∀ it ∈ items, it.status = "queued")
    (hd : ∀ it ∈ st.doneItems, it.status = "executed" ∨ it.status = "skipped")
    (he : st.firstErr = none)
    (hfe : (execLoop run mig ef now items st).firstErr = none) :
    ∀ it ∈ (execLoop run mig ef now items st).doneItems,
      it.status = "executed" ∨ it.status = "skipped" := by
  rcases execLoop_status run mig ef now items st hq hd he with ⟨-, h⟩ | ⟨hne, -⟩
  · exact h
  · exact absurd hfe hne

/-- Failed-loop corollary, keyed on the loop's own `firstErr`. -/
theorem execLoop_firstErr_some {run : Run} {mig : Migration} {ef : String → Bool}
    {now : Nat} {items : List RunItem} {st : ExecState}
    (hq : ∀ it ∈ items, it.status = "queued")
    (hd : ∀ it ∈ st.doneItems, it.status = "executed" ∨ it.status = "skipped")
    (he : st.firstErr = none)
    (hfe : (execLoop run mig ef now items st).firstErr ≠ none) :
    ∃ it ∈ (execLoop run mig ef now items st).doneItems, it.status = "failed" := by
  rcases execLoop_status run mig ef now items st hq hd he with ⟨hn, -⟩ | ⟨-, h⟩
  · exact absurd hn hfe
  · exact h

/-- C7: when the engine finishes iterating a run's (initially queued)
items, the run's final status is `failed` exactly when an item failed
(`firstErr`, surfaced as the returned error) and `executed` otherwise;
consequently an `executed` run has every item `executed` or `skipped`,
and a `failed` run has an item in `failed` (hence in
{`failed`, `canceled`}). -/
theorem c7_final_status_partition (c : Catalog) (dbs : List (Id × TargetDB))
    (execFails : String → Bool) (pid rid aid now : Id)
    (hq : ∀ it ∈ listRunItems c rid, it.status = "queued") :
    ∀ rwi, (ExecuteRun c dbs execFails pid rid aid now).result = .ok rwi →
      (rwi.run.status = "executed" ∨ rwi.run.status = "failed")
      ∧ (rwi.run.status = "executed" →
           ∀ it ∈ rwi.items, it.status = "executed" ∨ it.status = "skipped")
      ∧ (rwi.run.status = "failed" →
           ∃ it ∈ rwi.items, it.status = "failed" ∨ it.status = "canceled") := by
  intro rwi h
  unfold ExecuteRun at h
  cases hg : GetRunWithItems c pid rid with
  | error e => rw [hg] at h; exact absurd h (by simp)
  | ok rwi0 =>
    have hitems : rwi0.items = listRunItems c rid := (GetRunWithItems_ok hg).1
    have hqq : ∀ it ∈ rwi0.items, it.status = "queued" := by
      intro it hit
      exact hq it (hitems ▸ hit)
    rw [hg] at h
    dsimp only [] at h
    by_cases hst : (rwi0.run.status != "approved") = true
    · rw [if_pos hst] at h; exact absurd h (by simp)
    rw [if_neg hst] at h
    cases hmig : GetMigration c pid rwi0.run.migrationId with
    | error e => rw [hmig] at h; exact absurd h (by simp)
    | ok mig =>
      rw [hmig] at h
      dsimp only [] at h
      by_cases hck : (mig.checksumUp != rwi0.run.checksumUpAtRequest
          || !(equalNullable mig.checksumDown rwi0.run.checksumDownAtRequest)) = true
      · rw [if_pos hck] at h; exact absurd h (by simp)
      rw [if_neg hck] at h
      split at h
      next e heq =>
        dsimp only [] at h
        rw [Except.ok.injEq] at h
        rw [← h]
        have hfail := execLoop_firstErr_some hqq (fun it hit => absurd hit (List.not_mem_nil it)) rfl
          (by rw [heq]; simp)
        refine ⟨Or.inr rfl, by simp, fun _ => ?_⟩
        obtain ⟨it, hmem, hst'⟩ := hfail
        exact ⟨it, hmem, Or.inl hst'⟩
      next heq =>
        dsimp only [] at h
        rw [Except.ok.injEq] at h
        rw [← h]
        have hclean := execLoop_firstErr_none hqq (fun it hit => absurd hit (List.not_mem_nil it)) rfl heq
        exact ⟨Or.inl rfl, fun _ => hclean, by simp⟩

/-- C7 witness: executing the concrete approved run with one queued
item on a fresh target finishes `executed` with the item `executed`. -/
theorem c7_witness :
    (executedRunSample.status = "executed" ∨ executedRunSample.status = "failed")
  ∧ (executedRunSample.status = "executed" →
       ∀ it ∈ [executedItemSample], it.status = "executed" ∨ it.status = "skipped")
  ∧ (executedRunSample.status = "failed" →
       ∃ it ∈ [executedItemSample], it.status = "failed" ∨ it.status = "canceled") :=
  c7_final_status_partition catApprovedQueued [] (fun _ => false) 1 30 9 100
    (by decide) { run := executedRunSample, items := [executedItemSample] } (by rfl)

/-! ## C8 — idempotence against the bookkeeping table -/

/-- `executeItem` on a target that already has a bookkeeping row for
the migration key: same `checksum_up` means the already-applied
signal; a different one means the checksum-conflict error. Neither
案 touches the target. -/
theorem executeItem_book_row {c : Catalog} {run : Run} {item : RunItem} {mig : Migration}
    {dbs : List (Id × TargetDB)} {ef : String → Bool} {target : DBTarget} {row : BookRow}
    (ht : GetDBTarget c item.dbTargetId = .ok target)
    (ha : target.isActive = true)
    (he : strToLower target.engine = "postgres" ∨ strToLower target.engine = "mysql")
    (hrow : (getTargetDB dbs target.id).book.find?
        (fun r => r.migrationKey == mig.key) = some row) :
    (row.checksumUp = mig.checksumUp →
       executeItem c run item mig dbs ef = .error .alreadyApplied)
    ∧ (row.checksumUp ≠ mig.checksumUp →
       executeItem c run item mig dbs ef = .error .checksumConflictOnTarget) := by
  constructor
  · intro hsum
    unfold executeItem
    rw [ht]
    dsimp only []
    rw [if_neg (by simp [ha])]
    rcases he with he | he
    · rw [if_pos (by simp [he])]
      have hp : execPostgres run mig (getTargetDB dbs target.id) ef
          = .error .alreadyApplied := by
        unfold execPostgres
        rw [hrow]
        dsimp only []
        rw [if_pos (by simp [hsum])]
      rw [hp]
    · by_cases hpg : (strToLower target.engine == "postgres") = true
      · rw [he] at hpg; exact absurd hpg (by decide)
      rw [if_neg hpg, if_pos (by simp [he])]
      have hp : execMySQL run mig (getTargetDB dbs target.id) ef
          = .error .alreadyApplied := by
        unfold execMySQL
        rw [hrow]
        dsimp only []
        rw [if_pos (by simp [hsum])]
      rw [hp]
  · intro hsum
    unfold executeItem
    rw [ht]
    dsimp only []
    rw [if_neg (by simp [ha])]
    rcases he with he | he
    · rw [if_pos (by simp [he])]
      have hp : execPostgres run mig (getTargetDB dbs target.id) ef
          = .error .checksumConflictOnTarget := by
        unfold execPostgres
        rw [hrow]
        dsimp only []
        rw [if_neg (by simp [hsum])]
      rw [hp]
    · by_cases hpg : (strToLower target.engine == "postgres") = true
      · rw [he] at hpg; exact absurd hpg (by decide)
      rw [if_neg hpg, if_pos (by simp [he])]
      have hp : execMySQL run mig (getTargetDB dbs target.id) ef
          = .error .checksumConflictOnTarget := by
        unfold execMySQL
        rw [hrow]
        dsimp only []
        rw [if_neg (by simp [hsum])]
      rw [hp]

/-- `updateRunItemStatusIn` preserves the skip-message invariant
whenever a `skipped` write carries the canonical message. -/
theorem updateRunItemStatusIn_inv {c : Catalog} (h : skippedMsgInv c)
    (itemID : Id) (status : String) (errMsg : Option String)
    (finishedAt : Option Nat) (now : Nat)
    (hs : status = "skipped" → errMsg = some "already applied, skipped") :
    skippedMsgInv (updateRunItemStatusIn c itemID status errMsg finishedAt now) := by
  intro it hit hsk
  unfold updateRunItemStatusIn at hit
  simp only [List.mem_map] at hit
  obtain ⟨x, hx, hxe⟩ := hit
  by_cases hid : (x.id == itemID) = true
  · rw [if_pos hid] at hxe
    rw [← hxe] at hsk ⊢
    dsimp only [] at hsk ⊢
    rw [hs hsk]
  · rw [if_neg hid] at hxe
    rw [← hxe] at hsk ⊢
    exact h x hx hsk

/-- The executor's loop preserves the skip-message invariant: the only
write that sets status `skipped` carries message
"already applied, skipped". -/
theorem execLoop_inv (run : Run) (mig : Migration) (ef : String → Bool) (now : Nat) :
    ∀ (items : List RunItem) (st : ExecState),
      skippedMsgInv st.catalog →
      skippedMsgInv (execLoop run mig ef now items st).catalog := by
  intro items
  induction items with
  | nil => intro st h; exact h
  | cons item rest ih =>
    intro st h
    simp only [execLoop]
    by_cases hq : (item.status != "queued") = true
    · rw [if_pos hq]
      exact ih _ h
    rw [if_neg hq]
    cases hex : executeItem (updateRunItemStatusIn st.catalog item.id "running" none none now)
        run { item with status := "running", startedAt := some now } mig st.dbs ef with
    | ok dbs1 =>
      exact ih _ (updateRunItemStatusIn_inv
        (updateRunItemStatusIn_inv h _ _ _ _ _ (by decide)) _ _ _ _ _ (by decide))
    | error e =>
      cases e <;>
        first
        | exact ih _ (updateRunItemStatusIn_inv
            (updateRunItemStatusIn_inv h _ _ _ _ _ (by decide)) _ _ _ _ _ (by decide))
        | exact updateRunItemStatusIn_inv
            (updateRunItemStatusIn_inv h _ _ _ _ _ (by decide)) _ _ _ _ _ (by decide)

/-- The clean re-execution loop: when every (queued) item's target
already holds the bookkeeping row with the matching checksum, the loop
finishes without error, does not touch any target, and every processed
item ends `skipped`. -/
theorem execLoop_skip_all (run : Run) (mig : Migration) (ef : String → Bool) (now : Nat) :
    ∀ (items : List RunItem) (st : ExecState),
      st.firstErr = none →
      (∀ it ∈ items, it.status = "queued") →
      (∀ it ∈ items, ∃ target, GetDBTarget st.catalog it.dbTargetId = .ok target
         ∧ target.isActive = true
         ∧ (strToLower target.engine = "postgres" ∨ strToLower target.engine = "mysql")
         ∧ ∃ row, (getTargetDB st.dbs target.id).book.find?
               (fun r => r.migrationKey == mig.key) = some row
             ∧ row.checksumUp = mig.checksumUp) →
      (execLoop run mig ef now items st).firstErr = none
      ∧ (execLoop run mig ef now items st).dbs = st.dbs
      ∧ (∀ it ∈ (execLoop run mig ef now items st).doneItems,
           it ∈ st.doneItems ∨ it.status = "skipped") := by
  intro items
  induction items with
  | nil =>
    intro st he hq ht
    exact ⟨he, rfl, fun it hit => Or.inl hit⟩
  | cons item rest ih =>
    intro st he hq ht
    have hqi : item.status = "queued" := hq item (List.mem_cons_self _ _)
    obtain ⟨target, htg, hact, heng, row, hrow, hsum⟩ := ht item (List.mem_cons_self _ _)
    simp only [execLoop]
    rw [if_neg (by simp [hqi])]
    have hskip : executeItem (updateRunItemStatusIn st.catalog item.id "running" none none now)
        run { item with status := "running", startedAt := some now } mig st.dbs ef
        = .error .alreadyApplied :=
      (executeItem_book_row htg hact heng hrow).1 hsum
    rw [hskip]
    have key := ih
      { st with
        catalog := updateRunItemStatusIn
          (updateRunItemStatusIn st.catalog item.id "running" none none now)
          item.id "skipped" (some "already applied, skipped") (some now) now,
        doneItems := st.doneItems ++
          [{ item with status := "skipped", startedAt := some now,
                       finishedAt := some now, error := none }] }
      he (fun it hit => hq it (List.mem_cons_of_mem _ hit))
      (fun it hit => ht it (List.mem_cons_of_mem _ hit))
    refine ⟨key.1, key.2.1, ?_⟩
    intro it hit
    rcases key.2.2 it hit with hmem | hsk
    · rcases List.mem_append.mp hmem with h1 | h2
      · exact Or.inl h1
      · simp only [List.mem_singleton] at h2
        rw [h2]
        exact Or.inr rfl
    · exact Or.inr hsk

/-- `ExecuteRun` preserves the skip-message invariant (its run-status
updates never touch `run_items`). -/
theorem ExecuteRun_inv (c : Catalog) (dbs : List (Id × TargetDB)) (ef : String → Bool)
    (pid rid aid now : Id) (h : skippedMsgInv c) :
    skippedMsgInv (ExecuteRun c dbs ef pid rid aid now).catalog := by
  unfold ExecuteRun
  cases hg : GetRunWithItems c pid rid with
  | error e => exact h
  | ok rwi =>
    dsimp only []
    by_cases hst : (rwi.run.status != "approved") = true
    · rw [if_pos hst]; exact h
    rw [if_neg hst]
    cases hmig : GetMigration c pid rwi.run.migrationId with
    | error e => exact h
    | ok mig =>
      dsimp only []
      by_cases hck : (mig.checksumUp != rwi.run.checksumUpAtRequest
          || !(equalNullable mig.checksumDown rwi.run.checksumDownAtRequest)) = true
      · rw [if_pos hck]; exact h
      rw [if_neg hck]
      split
      · exact execLoop_inv _ _ _ _ _ _ h
      · exact execLoop_inv _ _ _ _ _ _ h

/-- C8: execution is idempotent against the bookkeeping table. A
bookkeeping row with the same `checksum_up` makes `executeItem` report
already-applied (the loop then marks the item `skipped`, always with
message "already applied, skipped" — the invariant conjunct); a row
with a different `checksum_up` fails the item with the on-target
checksum-conflict error and, by the loop's break, aborts the run;
re-executing an approved run against targets that all carry the
matching row finishes with status `executed`, every item `skipped`,
and every target state untouched (no SQL executed). -/
theorem c8_idempotent_execution :
    (∀ (c : Catalog) (run : Run) (item : RunItem) (mig : Migration)
       (dbs : List (Id × TargetDB)) (ef : String → Bool) (target : DBTarget)
       (row : BookRow),
       GetDBTarget c item.dbTargetId = .ok target → target.isActive = true →
       (strToLower target.engine = "postgres" ∨ strToLower target.engine = "mysql") →
       (getTargetDB dbs target.id).book.find?
           (fun r => r.migrationKey == mig.key) = some row →
       (row.checksumUp = mig.checksumUp →
          executeItem c run item mig dbs ef = .error .alreadyApplied)
       ∧ (row.checksumUp ≠ mig.checksumUp →
          executeItem c run item mig dbs ef = .error .checksumConflictOnTarget))
  ∧ (∀ (c : Catalog) (dbs : List (Id × TargetDB)) (ef : String → Bool)
       (pid rid aid now : Id),
       skippedMsgInv c → skippedMsgInv (ExecuteRun c dbs ef pid rid aid now).catalog)
  ∧ (∀ (c : Catalog) (dbs : List (Id × TargetDB)) (ef : String → Bool)
       (pid rid aid now : Id) (rwi : RunWithItems) (mig : Migration),
       GetRunWithItems c pid rid = .ok rwi →
       rwi.run.status = "approved" →
       GetMigration c pid rwi.run.migrationId = .ok mig →
       mig.checksumUp = rwi.run.checksumUpAtRequest →
       equalNullable mig.checksumDown rwi.run.checksumDownAtRequest = true →
       (∀ it ∈ rwi.items, it.status = "queued") →
       (∀ it ∈ rwi.items, ∃ target, GetDBTarget c it.dbTargetId = .ok target
          ∧ target.isActive = true
          ∧ (strToLower target.engine = "postgres" ∨ strToLower target.engine = "mysql")
          ∧ ∃ row, (getTargetDB dbs target.id).book.find?
                (fun r => r.migrationKey == mig.key) = some row
              ∧ row.checksumUp = mig.checksumUp) →
       (ExecuteRun c dbs ef pid rid aid now).dbs = dbs
       ∧ ∃ rwi', (ExecuteRun c dbs ef pid rid aid now).result = .ok rwi'
           ∧ rwi'.run.status = "executed"
           ∧ ∀ it ∈ rwi'.items, it.status = "skipped") := by
  refine ⟨?_, ?_, ?_⟩
  · intro c run item mig dbs ef target row ht ha he hrow
    exact executeItem_book_row ht ha he hrow
  · intro c dbs ef pid rid aid now h
    exact ExecuteRun_inv c dbs ef pid rid aid now h
  · intro c dbs ef pid rid aid now rwi mig hg hst hmig hup hdown hq ht
    unfold ExecuteRun
    rw [hg]
    dsimp only []
    rw [if_neg (by simp [hst]), hmig]
    dsimp only []
    rw [if_neg (by simp [hup, hdown])]
    have key := execLoop_skip_all
      { rwi.run with status := "running", executedBy := some aid, startedAt := some now }
      mig ef now rwi.items
      ⟨{ c with runs := c.runs.map fun r => if r.id == rwi.run.id then { rwi.run with status := "running", executedBy := some aid, startedAt := some now } else r }, dbs, [], none⟩
      rfl hq (fun it hit => ht it hit)
    split
    next e heq =>
      have hcontra : (none : Option StoreErr) = some e := key.1.symm.trans heq
      exact absurd hcontra (by simp)
    next heq =>
      refine ⟨key.2.1, _, rfl, rfl, ?_⟩
      intro it hit
      rcases key.2.2 it hit with hmem | hsk
      · exact absurd hmem (List.not_mem_nil it)
      · exact hsk

/-- C8 witness: re-executing the approved run against the target that
already holds the matching bookkeeping row yields the run `executed`,
the single item `skipped`, and the target state untouched. -/
theorem c8_witness :
    (ExecuteRun catApprovedQueued dbsApplied (fun _ => false) 1 30 9 100).dbs = dbsApplied
  ∧ ∃ rwi', (ExecuteRun catApprovedQueued dbsApplied (fun _ => false) 1 30 9 100).result
        = .ok rwi'
      ∧ rwi'.run.status = "executed"
      ∧ ∀ it ∈ rwi'.items, it.status = "skipped" :=
  c8_idempotent_execution.2.2 catApprovedQueued dbsApplied (fun _ => false) 1 30 9 100
    { run := sampleRun, items := [sampleItem] } sampleMig
    (by rfl) rfl (by rfl) rfl rfl (by decide)
    (by
      intro it hit
      simp only [List.mem_singleton] at hit
      subst hit
      exact ⟨sampleTgt, by rfl, rfl, Or.inl (by decide), appliedBookRow, by rfl, rfl⟩)

/-! ## C1 — SQL body selection (apply vs rollback) -/

/-- C1 exhibit: the execution engine never consults `run_type` when
selecting the SQL body — both drivers' `applyFn` closures execute
`mig.SQLUp` unconditionally. Executing this approved ROLLBACK run
against a fresh postgres target runs the migration's `sql_up` text
("CREATE TABLE t(id int);"), not its `sql_down` ("DROP TABLE t;"),
and the run still finishes `executed`. (After a real prior apply the
bookkeeping row would instead make the rollback item `skipped` — on
no path is `sql_down` ever executed.) -/
theorem c1_rollback_executes_up_sql :
    rollbackRunSample.runType = "rollback"
  ∧ sampleMig.sqlDown = some "DROP TABLE t;"
  ∧ sampleMig.sqlUp = "CREATE TABLE t(id int);"
  ∧ ((ExecuteRun catRollbackApproved [] (fun _ => false) 1 30 9 100).dbs.map
       fun p => p.2.executedSQL) = [["CREATE TABLE t(id int);"]]
  ∧ ((ExecuteRun catRollbackApproved [] (fun _ => false) 1 30 9 100).result.toOption.map
       fun r => r.run.status) = some "executed" := by decide

end MigrateHub
